import Mathlib

/-!
# Verification of the ANGLE `VertexDataManager` vertex translation layer

A shallow embedding of `src/libANGLE/renderer/d3d/VertexDataManager.cpp`:
the vertex-attribute streaming/translation engine that, per draw call,
classifies each active attribute, reserves destination space (persistent
per-buffer cache or shared streaming buffer), stores or direct-references
the data, and emits one `TranslatedAttribute` record per slot.

Machine integers are modelled as `Nat`/`Int` with explicit wrap (`% 2^32`)
where the C code performs unsigned 32-bit arithmetic, and with
truncating division/remainder (`Int.tdiv`/`Int.tmod`) where the C code
divides signed integers.  External collaborators
(`VertexBuffer`/`BufferD3D` primitives such as `reserveVertexSpace`,
`getSpaceRequired`, `storeVertexAttributes`, `directStoragePossible`)
are modelled as oracle fields on the corresponding buffer structures:
their internals are out of scope, only their success/failure and
returned offsets matter to this layer.
-/

namespace rx

/-- 2^32, the modulus of C `unsigned int` arithmetic. -/
def U32 : Nat := 4294967296

/-- `std::numeric_limits<int>::max()`. -/
def INT_MAX : Nat := 2147483647

/-- `gl::MAX_VERTEX_ATTRIBS`. -/
def MAX_VERTEX_ATTRIBS : Nat := 16

/-- Anonymous-namespace constant: initial streaming buffer size. -/
def INITIAL_STREAM_BUFFER_SIZE : Nat := 1048576

/-- Anonymous-namespace constant: size of each per-slot constant-value
buffer ("has to be at least 4k or else it fails on ATI cards"). -/
def CONSTANT_VERTEX_BUFFER_SIZE : Nat := 4096

/-- The `GL_FLOAT` enum value (initial type tag of a constant-value slot). -/
def GL_FLOAT : Nat := 5126

/-- `GL_NO_ERROR` / error codes are modelled by this small enumeration.
`outOfMemory` is `GL_OUT_OF_MEMORY`; `otherError` stands for any other
error code produced by an external collaborator. -/
inductive GLerr where
  | outOfMemory
  | otherError
  deriving DecidableEq, Repr

/-- `gl::VertexAttribute`: format (`type`, `size`, `normalized`), layout
(`stride`, `offset`), source (`bufferId` for a bound server buffer,
`pointer` for client memory), instancing `divisor`, and `enabled` flag.
`typeSize` carries the value of the external helper
`gl::ComputeVertexAttributeTypeSize` for this format (modelled from the
spec: the tightly packed byte size derived from the type). -/
structure VertexAttribute where
  enabled : Bool
  type : Nat
  size : Nat
  normalized : Bool
  stride : Nat
  typeSize : Nat
  offset : Nat
  divisor : Nat
  bufferId : Option Nat
  pointer : Option Nat
  deriving DecidableEq, Repr

/-- A disabled, unbound attribute (used as the out-of-range default). -/
def VertexAttribute.init : VertexAttribute :=
  { enabled := false, type := GL_FLOAT, size := 4, normalized := false,
    stride := 0, typeSize := 16, offset := 0, divisor := 0,
    bufferId := none, pointer := none }

/-- Modelled from the spec: `gl::ComputeVertexAttributeStride` returns the
declared stride, or the tightly packed type size when the declared stride
is 0. -/
def ComputeVertexAttributeStride (attrib : VertexAttribute) : Nat :=
  if attrib.stride = 0 then attrib.typeSize else attrib.stride

/-- Modelled from the spec: `gl::ComputeVertexAttributeTypeSize`, the
byte size of one tightly packed element of the attribute's format. -/
def ComputeVertexAttributeTypeSize (attrib : VertexAttribute) : Nat :=
  attrib.typeSize

/-- `ElementsInBuffer`: the number of elements addressable in a source
buffer of `size` bytes.  The C code clamps `size` to `INT_MAX` (a
`GLsizei`), then computes
`(size - offset % stride + (stride - typeSize)) / stride` in signed
arithmetic (`offset` is a signed `GLintptr`, promoting the whole
expression); C signed division truncates toward zero, hence
`Int.tdiv`/`Int.tmod`. -/
def ElementsInBuffer (attrib : VertexAttribute) (size : Nat) : Int :=
  let size' : Nat := min size INT_MAX
  let stride : Int := ComputeVertexAttributeStride attrib
  ((size' : Int) - (attrib.offset : Int).tmod stride +
    (stride - (ComputeVertexAttributeTypeSize attrib : Int))).tdiv stride

/-- `StreamingBufferElementCount`: divisor-aware element count for a
streaming reservation.  With instancing active and a positive divisor
the C code computes `(instanceDrawCount + attrib.divisor - 1) /
attrib.divisor` where `instanceDrawCount` is an `int` and
`attrib.divisor` a `GLuint`: the addition is performed in unsigned
32-bit arithmetic and may wrap (hence the `% U32`; both operands are
below `2^32`), and the division is unsigned.  The operands are
non-negative here (draw validation guarantees it). -/
def StreamingBufferElementCount (attrib : VertexAttribute)
    (vertexDrawCount instanceDrawCount : Nat) : Nat :=
  if instanceDrawCount > 0 ∧ attrib.divisor > 0 then
    ((instanceDrawCount + attrib.divisor - 1) % U32) / attrib.divisor
  else
    vertexDrawCount

/-- `gl::VertexAttribCurrentValueData`: a 4-component constant tagged by
`glType`.  The components are stored as raw 32-bit patterns (`Nat`), so
structural equality of this structure is exactly the bitwise `memcmp`
plus type comparison performed by the C `operator==` (modelled from the
spec: equality is exact, bitwise/typed, not approximate). -/
structure VertexAttribCurrentValueData where
  bits0 : Nat
  bits1 : Nat
  bits2 : Nat
  bits3 : Nat
  glType : Nat
  deriving DecidableEq, Repr

/-- The bit pattern of `std::numeric_limits<float>::quiet_NaN()`. -/
def quietNaNBits : Nat := 2143289344

/-- Initial contents of a constant-value slot: four quiet NaNs, `GL_FLOAT`
(`CurrentValueState::CurrentValueState`). -/
def VertexAttribCurrentValueData.initial : VertexAttribCurrentValueData :=
  { bits0 := quietNaNBits, bits1 := quietNaNBits, bits2 := quietNaNBits,
    bits3 := quietNaNBits, glType := GL_FLOAT }

/-- The signature under which a conversion was stored into a persistent
(static) cache: attribute format + stride + offset.  Modelled from the
spec: `StaticVertexBufferInterface::lookupAttribute` compares the cached
attribute interpretation with the requested one. -/
structure AttribKey where
  keyType : Nat
  keySize : Nat
  keyNormalized : Bool
  keyStride : Nat
  keyOffset : Nat
  deriving DecidableEq, Repr

/-- The signature of an attribute as recorded/compared by the persistent
cache. -/
def attribKey (attrib : VertexAttribute) : AttribKey :=
  { keyType := attrib.type, keySize := attrib.size,
    keyNormalized := attrib.normalized, keyStride := attrib.stride,
    keyOffset := attrib.offset }

/-- `StaticVertexBufferInterface`: the persistent cache owned by one
server buffer.  `bufferSize` is `getBufferSize()`; `cache` holds the one
signature -> byte-offset mapping of the populated state (`none` = empty).
The remaining fields are oracles for the external `VertexBuffer`
primitives: `directOk` is `directStoragePossible`, `reserveRes` is
`reserveVertexSpace`, `spaceReq` is `getVertexBuffer()->getSpaceRequired`
(returning the output element size), and `storeRes` is
`storeVertexAttributes` (returning the stored byte offset). -/
structure StaticVertexBufferInterface where
  serial : Nat
  bufferSize : Nat
  cache : Option (AttribKey × Nat)
  directOk : VertexAttribute → VertexAttribCurrentValueData → Bool
  reserveRes : VertexAttribute → Int → Nat → Except GLerr Unit
  spaceReq : VertexAttribute → Except GLerr Nat
  storeRes : VertexAttribute → Int → Int → Nat → Except GLerr Nat

/-- `StreamingVertexBufferInterface`: the shared streaming buffer (also
used for the per-slot constant-value buffers).  No signature tracking;
the fields are the same external-primitive oracles as for the static
variant. -/
structure StreamingVertexBufferInterface where
  serial : Nat
  directOk : VertexAttribute → VertexAttribCurrentValueData → Bool
  reserveRes : VertexAttribute → Int → Nat → Except GLerr Unit
  spaceReq : VertexAttribute → Except GLerr Nat
  storeRes : VertexAttribute → Int → Int → Nat → Except GLerr Nat

/-- `BufferD3D`: a server buffer, exposing its byte `size`, its `serial`
identity, and its lazily created persistent cache
(`getStaticVertexBuffer()`, which may be absent). -/
structure BufferD3D where
  size : Nat
  serial : Nat
  staticBuffer : Option StaticVertexBufferInterface

/-- `StaticVertexBufferInterface::lookupAttribute`: look the requested
attribute interpretation up in the persistent cache, returning the stored
byte offset on a signature match. -/
def lookupAttribute (sb : StaticVertexBufferInterface)
    (attrib : VertexAttribute) : Option Nat :=
  match sb.cache with
  | some (key, off) => if key = attribKey attrib then some off else none
  | none => none

/-- Modelled from the spec: `BufferD3D::invalidateStaticData` resets the
buffer's persistent cache to the empty state (no reservation, no cached
signature), so a subsequent lookup fails. -/
def invalidateStaticData (b : BufferD3D) : BufferD3D :=
  { b with staticBuffer :=
      b.staticBuffer.map fun sb => { sb with bufferSize := 0, cache := none } }

/-- `VertexDataManager::CurrentValueState`: one entry of the per-slot
constant-value cache (owned tiny buffer, last stored value, last byte
offset). -/
structure CurrentValueState where
  buffer : Option StreamingVertexBufferInterface
  data : VertexAttribCurrentValueData
  offset : Nat

/-- A freshly constructed `CurrentValueState`: no buffer yet, NaN floats. -/
def CurrentValueState.init : CurrentValueState :=
  { buffer := none, data := VertexAttribCurrentValueData.initial,
    offset := 0 }

/-- The slice of `gl::State` consumed by `prepareVertexData`: the ordered
attribute list of the bound vertex array, the per-slot constant values,
and the bound program's per-slot activity predicate
(`getSemanticIndex(i) != -1`). -/
structure GLContextState where
  attrs : List VertexAttribute
  currentValues : List VertexAttribCurrentValueData
  programActive : Nat → Bool

/-- The mutable world threaded through one `prepareVertexData` call: the
server-buffer table (`GetImplAs<BufferD3D>` by buffer id), the manager's
streaming buffer (`none` models the null allocation-failure state), and
the per-slot constant-value cache. -/
structure World where
  bufs : Nat → BufferD3D
  streamingBuffer : Option StreamingVertexBufferInterface
  currentValueCache : List CurrentValueState

/-- The factory environment: `newConstBuffer i` is the
`StreamingVertexBufferInterface` constructed for slot `i` with capacity
`CONSTANT_VERTEX_BUFFER_SIZE`. -/
structure Env where
  newConstBuffer : Nat → StreamingVertexBufferInterface

/-- `TranslatedAttribute`: the per-slot record emitted to draw
submission.  `storage` is the source `BufferD3D` (by buffer id) when
direct storage is used, `none` otherwise; `serial` is the destination
buffer identity. -/
structure TranslatedAttribute where
  active : Bool
  attrib : Option VertexAttribute
  storage : Option Nat
  serial : Nat
  divisor : Nat
  currentValueType : Nat
  stride : Nat
  offset : Nat
  deriving DecidableEq, Repr

/-- A `TranslatedAttribute` before the pass writes it. -/
def TranslatedAttribute.init : TranslatedAttribute :=
  { active := false, attrib := none, storage := none, serial := 0,
    divisor := 0, currentValueType := 0, stride := 0, offset := 0 }

/-- Identity of a destination buffer, for the event trace. -/
inductive BufRef where
  | streaming
  | staticBuf (bufferId : Nat)
  | constantBuf (slot : Nat)
  deriving DecidableEq, Repr

/-- The fatal-assertion sites (`ASSERT` / null dereference) of the
translation layer. -/
inductive AssertSite where
  | storeAttribSource
  | reserveElementCount
  | currentValueBufferNull
  deriving DecidableEq, Repr

/-- Observable side effects of one `prepareVertexData` call: unmap hints,
reservation calls (with the requested element count), physical stores,
and usage promotion notifications. -/
inductive Ev where
  | unmap (b : BufRef)
  | reserve (b : BufRef) (elementCount : Int)
  | store (b : BufRef)
  | promote (bufferId : Nat) (byteCount : Nat)
  deriving DecidableEq, Repr

/-- Result of a step: success, a returned `gl::Error`, or a fatal
assertion failure (which aborts the process, so nothing runs after it). -/
inductive Res (α : Type) where
  | ok (val : α)
  | fail (err : GLerr)
  | fatal (site : AssertSite)
  deriving DecidableEq, Repr

/-- Whether a `Res` is the fatal-assertion outcome. -/
def Res.isFatal {α : Type} : Res α → Bool
  | .fatal _ => true
  | _ => false

/-- `VertexDataManager::hintUnmapAllResources` (as the list of unmap-hint
events it issues): the streaming buffer, then the persistent cache of
every enabled attribute's server buffer, then every existing
constant-value buffer. -/
def hintUnmapAllResources (attrs : List VertexAttribute) (w : World) :
    List Ev :=
  Ev.unmap BufRef.streaming ::
    (attrs.filterMap fun attrib =>
      if attrib.enabled then
        match attrib.bufferId with
        | some id =>
          match (w.bufs id).staticBuffer with
          | some _ => some (Ev.unmap (BufRef.staticBuf id))
          | none => none
        | none => none
      else none) ++
    w.currentValueCache.enum.filterMap fun p =>
      match p.2.buffer with
      | some _ => some (Ev.unmap (BufRef.constantBuf p.1))
      | none => none

/-- `VertexDataManager::invalidateMatchingStaticData`: if the attribute is
bound to a server buffer whose persistent cache exists, is non-empty,
does not hold a matching signature, and direct storage is not possible,
invalidate that buffer's cache. -/
def invalidateMatchingStaticData (w : World) (attrib : VertexAttribute)
    (currentValue : VertexAttribCurrentValueData) : World :=
  match attrib.bufferId with
  | none => w
  | some id =>
    let bufferImpl := w.bufs id
    match bufferImpl.staticBuffer with
    | none => w
    | some staticBuffer =>
      if staticBuffer.bufferSize > 0 ∧
          lookupAttribute staticBuffer attrib = none ∧
          staticBuffer.directOk attrib currentValue = false then
        { w with bufs := fun j =>
            if j = id then invalidateStaticData bufferImpl else w.bufs j }
      else w

/-- The direct-storage classification made by both `reserveSpaceForAttrib`
and `storeAttribute`: `vertexBuffer->directStoragePossible(attrib,
currentValue)` where `vertexBuffer` is the source buffer's static buffer
when present, else the shared streaming buffer. -/
def directStoragePossibleFor (w : World)
    (streaming : StreamingVertexBufferInterface) (attrib : VertexAttribute)
    (currentValue : VertexAttribCurrentValueData) : Bool :=
  match (attrib.bufferId.map w.bufs).bind (·.staticBuffer) with
  | some sb => sb.directOk attrib currentValue
  | none => streaming.directOk attrib currentValue

/-- `VertexDataManager::reserveSpaceForAttrib`: choose the destination
(persistent cache when the source is a server buffer with a static
buffer, else the streaming buffer); when direct storage is impossible,
reserve space — sized to the whole source buffer for an empty persistent
cache, or to the divisor-aware element count for streaming (the
`ASSERT` that the source buffer can supply that many elements is the
`reserveElementCount` fatal site). -/
def reserveSpaceForAttrib (w : World)
    (streaming : StreamingVertexBufferInterface) (attrib : VertexAttribute)
    (currentValue : VertexAttribCurrentValueData)
    (count instances : Nat) : Res Unit × List Ev :=
  let bufferImpl := attrib.bufferId.map w.bufs
  let staticBuffer := bufferImpl.bind (·.staticBuffer)
  let direct := directStoragePossibleFor w streaming attrib currentValue
  if direct then (.ok (), [])
  else
    match staticBuffer with
    | some sb =>
      if sb.bufferSize = 0 then
        let totalCount := ElementsInBuffer attrib
          ((bufferImpl.map (·.size)).getD 0)
        match sb.reserveRes attrib totalCount 0 with
        | .ok _ =>
          (.ok (), [Ev.reserve (BufRef.staticBuf (attrib.bufferId.getD 0))
            totalCount])
        | .error e =>
          (.fail e, [Ev.reserve (BufRef.staticBuf (attrib.bufferId.getD 0))
            totalCount])
      else (.ok (), [])
    | none =>
      let totalCount := StreamingBufferElementCount attrib count instances
      let assertViolated : Bool :=
        match bufferImpl with
        | some b => decide (ElementsInBuffer attrib b.size < (totalCount : Int))
        | none => false
      if assertViolated then (.fatal .reserveElementCount, [])
      else
        match streaming.reserveRes attrib (totalCount : Int) instances with
        | .ok _ =>
          (.ok (), [Ev.reserve BufRef.streaming (totalCount : Int)])
        | .error e =>
          (.fail e, [Ev.reserve BufRef.streaming (totalCount : Int)])

/-- The `firstVertexIndex` of `storeAttribute`: instanced vertices
(`instances > 0 && attrib.divisor > 0`) do not apply the `start`
offset. -/
def firstVertexIndexOf (attrib : VertexAttribute) (start instances : Nat) :
    Nat :=
  if instances > 0 ∧ attrib.divisor > 0 then 0 else start

/-- The `firstElementOffset` computed in the persistent-cache path of
`storeAttribute`: `(attrib.offset / stride) * outputElementSize`,
stored into a C `unsigned int` (hence the wrap). -/
def firstElementOffsetOf (attrib : VertexAttribute)
    (outputElementSize : Nat) : Nat :=
  ((attrib.offset / ComputeVertexAttributeStride attrib) *
    outputElementSize) % U32

/-- The `startOffset` computed in the persistent-cache path of
`storeAttribute`: `firstVertexIndex * outputElementSize` for
non-instanced use (`instances == 0 || attrib.divisor == 0`), else 0;
stored into a C `unsigned int`. -/
def startOffsetOf (attrib : VertexAttribute)
    (start instances outputElementSize : Nat) : Nat :=
  if instances = 0 ∨ attrib.divisor = 0 then
    (firstVertexIndexOf attrib start instances * outputElementSize) % U32
  else 0

/-- The tail of `storeAttribute`'s persistent-cache path (the code after
the lookup/convert step has produced `streamOffset`): add the
first-element offset and the start offset with the source's single
unsigned-wrap guard, then emit the record. -/
def storeAttributeStaticTail (w : World)
    (translated : TranslatedAttribute) (attrib : VertexAttribute)
    (currentValue : VertexAttribCurrentValueData)
    (sb : StaticVertexBufferInterface)
    (outputElementSize start instances streamOffset : Nat)
    (evs : List Ev) : Res (TranslatedAttribute × World) × List Ev :=
  let firstElementOffset := firstElementOffsetOf attrib outputElementSize
  let startOffset := startOffsetOf attrib start instances outputElementSize
  if (streamOffset + firstElementOffset + startOffset) % U32 <
      streamOffset then
    (.fail .outOfMemory, evs)
  else
    (.ok ({ translated with
        storage := none,
        serial := sb.serial,
        divisor := attrib.divisor,
        currentValueType := currentValue.glType,
        stride := outputElementSize,
        offset := (streamOffset + firstElementOffset + startOffset) % U32 },
      w), evs)

/-- `VertexDataManager::storeAttribute` for one enabled attribute.
Mirrors the three paths of the source: direct storage (offset
arithmetic only), persistent cache (lookup or convert-the-entire-buffer,
then `storeAttributeStaticTail`), and streaming (fresh store of the
divisor-aware element count).  The `ASSERT(buffer ||
attrib.pointer)` is the `storeAttribSource` fatal site.  Returns the
updated translated record and world plus the event trace.  On a
successful non-lookup store into the persistent cache, the cache records
the signature that produced it (modelled from the spec: the static
buffer records the signature on `storeVertexAttributes`). -/
def storeAttribute (w : World)
    (streaming : StreamingVertexBufferInterface)
    (currentValue : VertexAttribCurrentValueData)
    (translated : TranslatedAttribute)
    (start count instances : Nat) :
    Res (TranslatedAttribute × World) × List Ev :=
  let attrib := translated.attrib.getD VertexAttribute.init
  if attrib.bufferId = none ∧ attrib.pointer = none then
    (.fatal .storeAttribSource, [])
  else
    let storage := attrib.bufferId.map w.bufs
    let staticBuffer := storage.bind (·.staticBuffer)
    let directStorage := directStoragePossibleFor w streaming attrib
      currentValue
    let firstVertexIndex := firstVertexIndexOf attrib start instances
    if directStorage then
      let outputElementSize := ComputeVertexAttributeStride attrib
      -- `static_cast<unsigned int>(attrib.offset + size * firstVertexIndex)`
      let streamOffset :=
        (attrib.offset + (outputElementSize * firstVertexIndex) % U32) % U32
      (.ok ({ translated with
          storage := attrib.bufferId,
          serial := (storage.map (·.serial)).getD 0,
          divisor := attrib.divisor,
          currentValueType := currentValue.glType,
          stride := outputElementSize,
          offset := streamOffset }, w), [])
    else
      match staticBuffer with
      | some sb =>
        match sb.spaceReq attrib with
        | .error e => (.fail e, [])
        | .ok outputElementSize =>
          match lookupAttribute sb attrib with
          | some streamOffset =>
            storeAttributeStaticTail w translated attrib currentValue sb
              outputElementSize start instances streamOffset []
          | none =>
            -- convert the entire buffer
            let totalCount := ElementsInBuffer attrib
              ((storage.map (·.size)).getD 0)
            let startIndex : Int :=
              (attrib.offset / ComputeVertexAttributeStride attrib : Nat)
            match sb.storeRes attrib (-startIndex) totalCount 0 with
            | .error e => (.fail e, [])
            | .ok streamOffset =>
              let id := attrib.bufferId.getD 0
              let sb' := { sb with
                  cache := some (attribKey attrib, streamOffset) }
              let w' := { w with bufs := fun j =>
                  (if j = id then
                    { w.bufs j with staticBuffer := some sb' }
                  else w.bufs j) }
              storeAttributeStaticTail w' translated attrib currentValue
                sb outputElementSize start instances streamOffset
                [Ev.store (BufRef.staticBuf id)]
      | none =>
        let totalCount := StreamingBufferElementCount attrib count instances
        match streaming.spaceReq attrib with
        | .error e => (.fail e, [])
        | .ok outputElementSize =>
          match streaming.storeRes attrib (firstVertexIndex : Int)
              (totalCount : Int) instances with
          | .error e => (.fail e, [])
          | .ok streamOffset =>
            (.ok ({ translated with
                storage := none,
                serial := streaming.serial,
                divisor := attrib.divisor,
                currentValueType := currentValue.glType,
                stride := outputElementSize,
                offset := streamOffset }, w),
              [Ev.store BufRef.streaming])

/-- The record `storeCurrentValue` emits for a disabled slot: divisor 0,
stride 0, no source buffer, the constant-value buffer's identity and the
slot's byte offset. -/
def currentValueRecord (translated : TranslatedAttribute)
    (currentValue : VertexAttribCurrentValueData)
    (buf : StreamingVertexBufferInterface) (offset : Nat) :
    TranslatedAttribute :=
  { translated with
      storage := none,
      serial := buf.serial,
      divisor := 0,
      currentValueType := currentValue.glType,
      stride := 0,
      offset := offset }

/-- `VertexDataManager::storeCurrentValue` for one disabled slot: store
the constant only when it differs (exact comparison) from the slot's
cached value, then emit a record referencing the slot's private
constant-value buffer (divisor 0, stride 0, no source buffer).  The
`slot` index only labels the trace events.  Dereferencing an absent
buffer is the `currentValueBufferNull` fatal site (unreachable from
`prepareVertexData`, which creates the buffer first). -/
def storeCurrentValue (currentValue : VertexAttribCurrentValueData)
    (translated : TranslatedAttribute) (slot : Nat)
    (cachedState : CurrentValueState) :
    Res (TranslatedAttribute × CurrentValueState) × List Ev :=
  match cachedState.buffer with
  | none => (.fatal .currentValueBufferNull, [])
  | some buf =>
    let attrib := translated.attrib.getD VertexAttribute.init
    if cachedState.data ≠ currentValue then
      match buf.reserveRes attrib 1 0 with
      | .error e => (.fail e, [])
      | .ok _ =>
        match buf.storeRes attrib 0 1 0 with
        | .error e => (.fail e, [])
        | .ok streamOffset =>
          let cachedState' := { cachedState with
              data := currentValue, offset := streamOffset }
          (.ok (currentValueRecord translated currentValue buf
              cachedState'.offset, cachedState'),
            [Ev.store (BufRef.constantBuf slot)])
    else
      (.ok (currentValueRecord translated currentValue buf
          cachedState.offset, cachedState), [])

/-- One slot's initial translated record as written by the first pass of
`prepareVertexData`: the `active` flag from the program's semantic index,
and (for active slots) the reference to the attribute descriptor. -/
def initSlot (st : GLContextState) (i : Nat) : TranslatedAttribute :=
  let active := st.programActive i
  { TranslatedAttribute.init with
      active := active,
      attrib := if active then
          some (st.attrs.getD i VertexAttribute.init)
        else none }

/-- First pass of `prepareVertexData` over the vertex-array slots: record
activity and the attribute reference, and for each active enabled
attribute invalidate non-matching persistent caches. -/
def activityLoop (st : GLContextState) :
    List Nat → World → List TranslatedAttribute × World
  | [], w => ([], w)
  | i :: rest, w =>
    let a := st.attrs.getD i VertexAttribute.init
    let t := initSlot st i
    let w' :=
      if t.active && a.enabled then
        invalidateMatchingStaticData w a
          (st.currentValues.getD i VertexAttribCurrentValueData.initial)
      else w
    let (ts, w'') := activityLoop st rest w'
    (t :: ts, w'')

/-- Reservation pass of `prepareVertexData`: for each active enabled
slot, reserve the required space; a failure returns immediately (the
events emitted so far stand, and — as in the source — no unmap hint is
issued on this path). -/
def reserveLoop (streaming : StreamingVertexBufferInterface)
    (st : GLContextState) (count instances : Nat) :
    List Nat → World → List TranslatedAttribute → Res Unit × List Ev
  | [], _, _ => (.ok (), [])
  | i :: rest, w, ts =>
    let t := ts.getD i TranslatedAttribute.init
    if t.active && (t.attrib.getD VertexAttribute.init).enabled then
      match reserveSpaceForAttrib w streaming
          (t.attrib.getD VertexAttribute.init)
          (st.currentValues.getD i VertexAttribCurrentValueData.initial)
          count instances with
      | (.ok _, evs) =>
        let (res, evs') := reserveLoop streaming st count instances rest w ts
        (res, evs ++ evs')
      | (.fail e, evs) => (.fail e, evs)
      | (.fatal s, evs) => (.fatal s, evs)
    else reserveLoop streaming st count instances rest w ts

/-- The store-pass body for one active slot: enabled attributes go
through `storeAttribute`; disabled slots get their constant-value buffer
created if absent (the creation persists in the returned world even when
the subsequent `storeCurrentValue` fails, as in the source, where the
cache entry is assigned before the call), then `storeCurrentValue`.
Returns the updated record, the updated world, and the events. -/
def storeSlot (env : Env) (streaming : StreamingVertexBufferInterface)
    (st : GLContextState) (start count instances i : Nat) (w : World)
    (t : TranslatedAttribute) :
    Res TranslatedAttribute × World × List Ev :=
  if (t.attrib.getD VertexAttribute.init).enabled then
    match storeAttribute w streaming
        (st.currentValues.getD i VertexAttribCurrentValueData.initial)
        t start count instances with
    | (.ok (t', w'), evs) => (.ok t', w', evs)
    | (.fail e, evs) => (.fail e, w, evs)
    | (.fatal s, evs) => (.fatal s, w, evs)
  else
    let cs := w.currentValueCache.getD i CurrentValueState.init
    let cs :=
      match cs.buffer with
      | none => { cs with buffer := some (env.newConstBuffer i) }
      | some _ => cs
    let w2 := { w with
        currentValueCache := w.currentValueCache.set i cs }
    match storeCurrentValue
        (st.currentValues.getD i VertexAttribCurrentValueData.initial)
        t i cs with
    | (.ok (t', cs'), evs) =>
      (.ok t', { w2 with
          currentValueCache := w2.currentValueCache.set i cs' }, evs)
    | (.fail e, evs) => (.fail e, w2, evs)
    | (.fatal s, evs) => (.fatal s, w2, evs)

/-- Store pass of `prepareVertexData`: for each active slot, run
`storeSlot`.  Both state and the translated array are threaded; a
failure stops the loop (the caller issues the unmap hints). -/
def storeLoop (env : Env) (streaming : StreamingVertexBufferInterface)
    (st : GLContextState) (start count instances : Nat) :
    List Nat → World → List TranslatedAttribute →
      Res Unit × World × List TranslatedAttribute × List Ev
  | [], w, ts => (.ok (), w, ts, [])
  | i :: rest, w, ts =>
    let t := ts.getD i TranslatedAttribute.init
    if t.active then
      match storeSlot env streaming st start count instances i w t with
      | (.ok t', w', evs) =>
        let (res, w'', ts', evs') := storeLoop env streaming st start
          count instances rest w' (ts.set i t')
        (res, w'', ts', evs ++ evs')
      | (.fail e, w', evs) => (.fail e, w', ts, evs)
      | (.fatal s, w', evs) => (.fatal s, w', ts, evs)
    else storeLoop env streaming st start count instances rest w ts

/-- Usage-promotion pass of `prepareVertexData` (as its event list): for
each active enabled slot bound to a server buffer, notify the buffer of
the byte extent just consumed
(`promoteStaticUsage(count * typeSize)`). -/
def promoteEvents (st : GLContextState) (ts : List TranslatedAttribute)
    (count : Nat) : List Ev :=
  (List.range MAX_VERTEX_ATTRIBS).filterMap fun i =>
    let curAttrib := st.attrs.getD i VertexAttribute.init
    if (ts.getD i TranslatedAttribute.init).active && curAttrib.enabled then
      curAttrib.bufferId.map fun id =>
        Ev.promote id (count * ComputeVertexAttributeTypeSize curAttrib)
    else none

/-- `VertexDataManager::prepareVertexData(state, start, count, translated,
instances)`: fail fatally-as-error if the streaming buffer is absent;
run the activity/invalidation pass over the vertex-array slots, the
reservation pass and the store pass over the `MAX_VERTEX_ATTRIBS` slots;
issue the unmap hints after the store pass (on both its success and its
failure — but not after a reservation failure, which returns directly);
finally promote buffer usage and return the translated records. -/
def prepareVertexData (env : Env) (w : World) (st : GLContextState)
    (start count instances : Nat) :
    Res (List TranslatedAttribute) × World × List Ev :=
  match w.streamingBuffer with
  | none => (.fail .outOfMemory, w, [])
  | some streaming =>
    let (ts0, w1) := activityLoop st (List.range st.attrs.length) w
    let idx := List.range MAX_VERTEX_ATTRIBS
    match reserveLoop streaming st count instances idx w1 ts0 with
    | (.fail e, evs) => (.fail e, w1, evs)
    | (.fatal s, evs) => (.fatal s, w1, evs)
    | (.ok _, evsR) =>
      match storeLoop env streaming st start count instances idx w1 ts0 with
      | (.fail e, w2, _, evsS) =>
        (.fail e, w2, evsR ++ evsS ++ hintUnmapAllResources st.attrs w2)
      | (.fatal s, w2, _, evsS) => (.fatal s, w2, evsR ++ evsS)
      | (.ok _, w2, ts2, evsS) =>
        (.ok ts2, w2,
          evsR ++ evsS ++ hintUnmapAllResources st.attrs w2 ++
            promoteEvents st ts2 count)

/-- Whether a `Res` is a success. -/
def Res.isOk {α : Type} : Res α → Bool
  | .ok _ => true
  | _ => false

/-- The byte offset carried by a successful `storeAttribute` result
(0 otherwise). -/
def storeResultOffset (r : Res (TranslatedAttribute × World)) : Nat :=
  match r with
  | .ok (t, _) => t.offset
  | _ => 0

/- ### Concrete fixtures used by witnesses and counterexamples -/

/-- Concrete fixture: an attribute with divisor 3 (for the C2 witness). -/
def attribDiv3 : VertexAttribute :=
  { VertexAttribute.init with divisor := 3 }

/-- Concrete fixture: an attribute with the (legal) divisor `2^32 - 2`,
large enough that `instanceCount + divisor - 1` wraps in unsigned 32-bit
arithmetic (for the C2 counterexample). -/
def attribBigDiv : VertexAttribute :=
  { VertexAttribute.init with divisor := 4294967294 }

/-- Concrete fixture: stride 4, type size 4, offset 3 (for the C6
witness). -/
def attribS4 : VertexAttribute :=
  { VertexAttribute.init with stride := 4, typeSize := 4, offset := 3 }

/-- Fixture: a streaming buffer whose external primitives all succeed
(element size 4, stored offset 128), with direct storage impossible. -/
def okStreaming : StreamingVertexBufferInterface :=
  { serial := 100, directOk := fun _ _ => false,
    reserveRes := fun _ _ _ => .ok (), spaceReq := fun _ => .ok 4,
    storeRes := fun _ _ _ _ => .ok 128 }

/-- Fixture: a streaming buffer whose `reserveVertexSpace` fails with
`GL_OUT_OF_MEMORY`. -/
def failingStreaming : StreamingVertexBufferInterface :=
  { serial := 100, directOk := fun _ _ => false,
    reserveRes := fun _ _ _ => .error .outOfMemory,
    spaceReq := fun _ => .ok 4, storeRes := fun _ _ _ _ => .ok 128 }

/-- Fixture: the constant-value buffer the factory creates for slot `i`
(all primitives succeed, stored offset 64). -/
def constBufFixture (i : Nat) : StreamingVertexBufferInterface :=
  { serial := 200 + i, directOk := fun _ _ => false,
    reserveRes := fun _ _ _ => .ok (), spaceReq := fun _ => .ok 16,
    storeRes := fun _ _ _ _ => .ok 64 }

/-- Fixture environment built on `constBufFixture`. -/
def envX : Env := { newConstBuffer := constBufFixture }

/-- Fixture: an enabled client-memory attribute (no server buffer). -/
def clientAttr : VertexAttribute :=
  { VertexAttribute.init with
      enabled := true, pointer := some 0, stride := 4, typeSize := 4 }

/-- Fixture: a disabled attribute declaring a nonzero divisor and
stride (for C10: the emitted record must ignore both). -/
def disabledAttr : VertexAttribute :=
  { VertexAttribute.init with
      enabled := false, divisor := 7, stride := 12 }

/-- Fixture: a server buffer with no persistent cache. -/
def emptyBuf : BufferD3D := { size := 0, serial := 0, staticBuffer := none }

/-- Fixture vertex-array state: slot 0 a client attribute, slot 1 a
disabled attribute, slots 2-15 inactive. -/
def stOk : GLContextState :=
  { attrs := clientAttr :: disabledAttr ::
      List.replicate 14 VertexAttribute.init,
    currentValues := List.replicate 16 VertexAttribCurrentValueData.initial,
    programActive := fun i => i < 2 }

/-- Fixture world with a fully working streaming buffer. -/
def wOk : World :=
  { bufs := fun _ => emptyBuf, streamingBuffer := some okStreaming,
    currentValueCache := List.replicate 16 CurrentValueState.init }

/-- Fixture world whose streaming buffer cannot reserve space (drives the
reservation pass into its failure exit). -/
def wC1 : World :=
  { bufs := fun _ => emptyBuf, streamingBuffer := some failingStreaming,
    currentValueCache := List.replicate 16 CurrentValueState.init }

/-- Fixture vertex-array state with only slot 0 active (an enabled
client-memory attribute that needs a streaming reservation). -/
def stC1 : GLContextState :=
  { attrs := clientAttr :: List.replicate 15 VertexAttribute.init,
    currentValues := List.replicate 16 VertexAttribCurrentValueData.initial,
    programActive := fun i => i == 0 }

/-- Fixture: attribute for the C8 overflow scenario — bound to server
buffer 1, stride 1, element size 1, offset `2^32 - 1` (a legal
non-negative `GLintptr` buffer offset). -/
def a8 : VertexAttribute :=
  { VertexAttribute.init with
      enabled := true, bufferId := some 1, stride := 1, typeSize := 1,
      offset := 4294967295 }

/-- Fixture: a populated persistent cache holding `a8`'s signature at
byte offset 0 (a lookup hit), element size 1. -/
def sbHit : StaticVertexBufferInterface :=
  { serial := 50, bufferSize := 10, cache := some (attribKey a8, 0),
    directOk := fun _ _ => false, reserveRes := fun _ _ _ => .ok (),
    spaceReq := fun _ => .ok 1, storeRes := fun _ _ _ _ => .ok 0 }

/-- Fixture: the server buffer owning `sbHit`. -/
def b8 : BufferD3D := { size := 10, serial := 5, staticBuffer := some sbHit }

/-- Fixture world for the C8 overflow scenario. -/
def w8 : World :=
  { bufs := fun _ => b8, streamingBuffer := some okStreaming,
    currentValueCache := List.replicate 16 CurrentValueState.init }

/-- Fixture translated record for `a8` (active, as written by the first
pass). -/
def t8 : TranslatedAttribute :=
  { TranslatedAttribute.init with active := true, attrib := some a8 }

/-- Fixture: a persistent cache for which direct storage is possible. -/
def sbDirect : StaticVertexBufferInterface :=
  { serial := 60, bufferSize := 0, cache := none,
    directOk := fun _ _ => true, reserveRes := fun _ _ _ => .ok (),
    spaceReq := fun _ => .ok 4, storeRes := fun _ _ _ _ => .ok 0 }

/-- Fixture: the server buffer owning `sbDirect`. -/
def bDirect : BufferD3D :=
  { size := 100, serial := 7, staticBuffer := some sbDirect }

/-- Fixture: an enabled attribute bound to buffer 2, stride 8, offset 4
(direct-storage scenario). -/
def aDirect : VertexAttribute :=
  { VertexAttribute.init with
      enabled := true, bufferId := some 2, stride := 8, typeSize := 8,
      offset := 4 }

/-- Fixture world for the direct-storage scenario. -/
def wDirect : World :=
  { bufs := fun j => if j = 2 then bDirect else emptyBuf,
    streamingBuffer := some okStreaming,
    currentValueCache := List.replicate 16 CurrentValueState.init }

/-- Fixture translated record for `aDirect`. -/
def tDirect : TranslatedAttribute :=
  { TranslatedAttribute.init with active := true, attrib := some aDirect }

/-- Fixture: a constant value distinct from the NaN-initialised cache. -/
def cvRed : VertexAttribCurrentValueData :=
  { bits0 := 1065353216, bits1 := 0, bits2 := 0, bits3 := 1065353216,
    glType := GL_FLOAT }

/-- Fixture: a constant-value slot state whose buffer exists. -/
def csWithBuf : CurrentValueState :=
  { CurrentValueState.init with buffer := some (constBufFixture 3) }

/-- Fixture: the slot state after storing `cvRed` through `csWithBuf`. -/
def cs1Fix : CurrentValueState :=
  { buffer := some (constBufFixture 3), data := cvRed, offset := 64 }

/-- Fixture: the translated record produced by that first store. -/
def t1Fix : TranslatedAttribute :=
  { TranslatedAttribute.init with
      serial := 203, currentValueType := GL_FLOAT, offset := 64 }

/-- Fixture: an empty persistent cache for which direct storage is not
possible. -/
def sbNoDirect : StaticVertexBufferInterface :=
  { serial := 60, bufferSize := 0, cache := none,
    directOk := fun _ _ => false, reserveRes := fun _ _ _ => .ok (),
    spaceReq := fun _ => .ok 4, storeRes := fun _ _ _ _ => .ok 0 }

/-- Fixture: buffer 2 with the empty non-direct cache `sbNoDirect`. -/
def bNoDirect : BufferD3D :=
  { size := 100, serial := 7, staticBuffer := some sbNoDirect }

/-- Fixture world for the empty-cache reservation scenario. -/
def wNoDirect : World :=
  { bufs := fun j => if j = 2 then bNoDirect else emptyBuf,
    streamingBuffer := some okStreaming,
    currentValueCache := List.replicate 16 CurrentValueState.init }

/-- The translated records of the successful `stOk` fixture run
(extracted for the C10 witness). -/
def prepOkTranslated : List TranslatedAttribute :=
  match (prepareVertexData envX wOk stOk 5 3 0).1 with
  | .ok ts => ts
  | _ => []

end rx

namespace rx

/- ### Theorems for the numeric helpers -/

/-- Helper: `(i + d - 1) / d` is the rational ceiling of `i / d`. -/
theorem add_pred_div_eq_ceil (i d : Nat) (hd : 0 < d) :
    ((i + d - 1) / d : Nat) = ⌈(i : ℚ) / (d : ℚ)⌉₊ := by
  have hdq : (0 : ℚ) < (d : ℚ) := by exact_mod_cast hd
  apply le_antisymm
  · -- (i + d - 1) / d ≤ ⌈i / d⌉₊ because i ≤ ⌈i / d⌉₊ * d
    have hle : (i : ℚ) / (d : ℚ) ≤ (⌈(i : ℚ) / (d : ℚ)⌉₊ : ℚ) := Nat.le_ceil _
    have hle2 : (i : ℚ) ≤ (⌈(i : ℚ) / (d : ℚ)⌉₊ : ℚ) * (d : ℚ) := by
      calc (i : ℚ) = (i : ℚ) / (d : ℚ) * (d : ℚ) := by field_simp
      _ ≤ _ := by exact mul_le_mul_of_nonneg_right hle (le_of_lt hdq)
    have hin : i ≤ ⌈(i : ℚ) / (d : ℚ)⌉₊ * d := by exact_mod_cast hle2
    have hlt : i + d - 1 < (⌈(i : ℚ) / (d : ℚ)⌉₊ + 1) * d := by
      have hexp : (⌈(i : ℚ) / (d : ℚ)⌉₊ + 1) * d =
          ⌈(i : ℚ) / (d : ℚ)⌉₊ * d + d := by ring
      omega
    have := (Nat.div_lt_iff_lt_mul hd).mpr hlt
    omega
  · -- ⌈i / d⌉₊ ≤ (i + d - 1) / d because i ≤ ((i + d - 1) / d) * d
    have h1 := Nat.div_add_mod' (i + d - 1) d
    have h2 : (i + d - 1) % d < d := Nat.mod_lt _ hd
    have key : i ≤ ((i + d - 1) / d) * d := by
      rcases Nat.eq_zero_or_pos i with hi | hi
      · simp [hi]
      · omega
    rw [Nat.ceil_le]
    rw [div_le_iff₀ hdq]
    exact_mod_cast key

/-- C2 counterexample: at `instanceCount = 5` and the legal divisor
`2^32 - 2`, the unsigned 32-bit addition `5 + (2^32-2) - 1` wraps to 2,
so the program computes `2 / (2^32-2) = 0` — not the ceiling
`⌈5 / (2^32-2)⌉ = 1` the claim demands. -/
theorem streamingBufferElementCount_wrap :
    StreamingBufferElementCount attribBigDiv 9 5 = 0 ∧
    ⌈(5 : ℚ) / ((4294967294 : Nat) : ℚ)⌉₊ = 1 := by
  constructor
  · decide
  · rw [Nat.ceil_eq_iff (by norm_num)]
    constructor
    · push_cast
      norm_num
    · push_cast
      rw [div_le_iff₀ (by norm_num)]
      norm_num

/-- C2 (amended): the divisor-aware required element count equals
`⌈instanceCount / divisor⌉` when the instance count and the attribute's
divisor are positive and the unsigned 32-bit addition
`instanceCount + divisor - 1` does not wrap; it equals `vertexCount`
when instancing is inactive or the divisor is zero.  (When the addition
wraps, the program returns the wrapped quotient instead of the ceiling —
see the counterexample.)  In particular `requiredCount(5, divisor 3) = 2`
and `requiredCount(0, divisor 0) = vertexCount`. -/
theorem streamingBufferElementCount_spec (attrib : VertexAttribute)
    (vertexCount instanceCount : Nat) :
    (0 < instanceCount → 0 < attrib.divisor →
      instanceCount + attrib.divisor - 1 < U32 →
      StreamingBufferElementCount attrib vertexCount instanceCount =
        ⌈(instanceCount : ℚ) / (attrib.divisor : ℚ)⌉₊) ∧
    (¬(0 < instanceCount ∧ 0 < attrib.divisor) →
      StreamingBufferElementCount attrib vertexCount instanceCount =
        vertexCount) := by
  constructor
  · intro hi hd hnw
    unfold StreamingBufferElementCount
    rw [if_pos ⟨hi, hd⟩]
    rw [Nat.mod_eq_of_lt hnw]
    exact add_pred_div_eq_ceil instanceCount attrib.divisor hd
  · intro h
    unfold StreamingBufferElementCount
    rw [if_neg h]

/-- Witness for C2 at the spec's concrete inputs:
`requiredCount(instanceCount 5, divisor 3) = 2` and
`requiredCount(instanceCount 0, divisor 0) = vertexCount 7`. -/
theorem streamingBufferElementCount_spec_witness :
    StreamingBufferElementCount attribDiv3 9 5 = 2 ∧
    StreamingBufferElementCount VertexAttribute.init 7 0 = 7 := by
  constructor
  · have h := (streamingBufferElementCount_spec attribDiv3 9 5).1
      (by decide) (by decide) (by decide)
    rw [h]
    have hdiv : ((attribDiv3.divisor : Nat) : ℚ) = 3 := by
      norm_num [attribDiv3, VertexAttribute.init]
    rw [hdiv]
    rw [Nat.ceil_eq_iff (by norm_num)]
    norm_num
  · exact (streamingBufferElementCount_spec VertexAttribute.init 7 0).2
      (by decide)

/-- C6: for a source buffer of byte size zero, `ElementsInBuffer` yields a
non-positive element count, for every attribute stride, element size
(at least one byte) and offset. -/
theorem elementsInBuffer_zero_size_nonpos (attrib : VertexAttribute)
    (hts : 1 ≤ attrib.typeSize) :
    ElementsInBuffer attrib 0 ≤ 0 := by
  unfold ElementsInBuffer ComputeVertexAttributeStride
      ComputeVertexAttributeTypeSize
  have hstride : 1 ≤ (if attrib.stride = 0 then attrib.typeSize
      else attrib.stride) := by
    split
    · exact hts
    · omega
  set s : Nat := if attrib.stride = 0 then attrib.typeSize else attrib.stride
    with hs
  have hs0 : (0 : Int) < (s : Int) := by exact_mod_cast hstride
  have hmod : (0 : Int) ≤ (attrib.offset : Int).tmod (s : Int) := by
    rw [Int.tmod_eq_emod (by positivity) (le_of_lt hs0)]
    exact Int.emod_nonneg _ (by omega)
  have hnum : ((min 0 INT_MAX : Nat) : Int) -
      (attrib.offset : Int).tmod (s : Int) +
      ((s : Int) - (attrib.typeSize : Int)) ≤ (s : Int) - 1 := by
    have : ((min 0 INT_MAX : Nat) : Int) = 0 := by norm_num [INT_MAX]
    rw [this]
    have hts' : (1 : Int) ≤ (attrib.typeSize : Int) := by exact_mod_cast hts
    omega
  set num : Int := ((min 0 INT_MAX : Nat) : Int) -
      (attrib.offset : Int).tmod (s : Int) +
      ((s : Int) - (attrib.typeSize : Int)) with hnumdef
  rcases le_or_lt 0 num with hpos | hneg
  · have : num.tdiv (s : Int) = num / (s : Int) :=
      Int.tdiv_eq_ediv hpos (le_of_lt hs0)
    rw [this]
    rw [Int.ediv_eq_zero_of_lt hpos (by omega)]
  · have hneg' : 0 ≤ -num := by omega
    have : num.tdiv (s : Int) = -((-num).tdiv (s : Int)) := by
      rw [← Int.neg_tdiv, neg_neg]
    rw [this]
    have := Int.tdiv_nonneg hneg' (le_of_lt hs0)
    omega

/-- Witness for C6 at a concrete attribute (stride 4, type size 4,
offset 3): a zero-size buffer holds no elements. -/
theorem elementsInBuffer_zero_size_nonpos_witness :
    ElementsInBuffer attribS4 0 ≤ 0 :=
  elementsInBuffer_zero_size_nonpos attribS4 (by decide)

/-- C3: for an attribute classified as direct storage, the emitted
record's byte offset is `attrib.offset + stride * firstVertexIndex`
(no wrap, under the no-overflow side condition), the record references
the original buffer, no data movement occurs (empty event trace, world
unchanged), and `firstVertexIndex` is `start` normally but 0 when
`instances > 0` and the divisor is positive. -/
theorem storeAttribute_direct_offset (w : World)
    (streaming : StreamingVertexBufferInterface)
    (cv : VertexAttribCurrentValueData) (t : TranslatedAttribute)
    (start count instances : Nat) (a : VertexAttribute)
    (ht : t.attrib = some a)
    (hsrc : a.bufferId ≠ none ∨ a.pointer ≠ none)
    (hdir : directStoragePossibleFor w streaming a cv = true)
    (hfit : a.offset + ComputeVertexAttributeStride a *
      firstVertexIndexOf a start instances < U32) :
    ∃ t', storeAttribute w streaming cv t start count instances =
      (.ok (t', w), []) ∧
      t'.offset = a.offset + ComputeVertexAttributeStride a *
        firstVertexIndexOf a start instances ∧
      t'.storage = a.bufferId ∧
      firstVertexIndexOf a start instances =
        (if 0 < instances ∧ 0 < a.divisor then 0 else start) := by
  have hcond : ¬(a.bufferId = none ∧ a.pointer = none) := by
    rcases hsrc with h | h
    · exact fun hc => h hc.1
    · exact fun hc => h hc.2
  have hmod1 : (ComputeVertexAttributeStride a *
      firstVertexIndexOf a start instances) % U32 =
      ComputeVertexAttributeStride a * firstVertexIndexOf a start instances :=
    Nat.mod_eq_of_lt (by omega)
  have hmod2 : (a.offset + ComputeVertexAttributeStride a *
      firstVertexIndexOf a start instances) % U32 =
      a.offset + ComputeVertexAttributeStride a *
        firstVertexIndexOf a start instances :=
    Nat.mod_eq_of_lt hfit
  have hmain : storeAttribute w streaming cv t start count instances =
      (.ok ({ t with
          storage := a.bufferId,
          serial := (((a.bufferId.map w.bufs)).map (·.serial)).getD 0,
          divisor := a.divisor, currentValueType := cv.glType,
          stride := ComputeVertexAttributeStride a,
          offset := a.offset + ComputeVertexAttributeStride a *
            firstVertexIndexOf a start instances }, w), []) := by
    simp only [storeAttribute, ht, Option.getD_some, hcond, if_false,
      hdir, if_true, ite_false, ite_true, hmod1, hmod2]
  exact ⟨_, hmain, rfl, rfl, rfl⟩

/-- Witness for C3: attribute `aDirect` (offset 4, stride 8) with
`start = 5`, non-instanced, stores directly at byte offset 44. -/
theorem storeAttribute_direct_offset_witness :
    ∃ t', storeAttribute wDirect okStreaming
        VertexAttribCurrentValueData.initial tDirect 5 3 0 =
      (.ok (t', wDirect), []) ∧
      t'.offset = aDirect.offset + ComputeVertexAttributeStride aDirect *
        firstVertexIndexOf aDirect 5 0 ∧
      t'.storage = aDirect.bufferId ∧
      firstVertexIndexOf aDirect 5 0 =
        (if 0 < 0 ∧ 0 < aDirect.divisor then 0 else 5) :=
  storeAttribute_direct_offset wDirect okStreaming
    VertexAttribCurrentValueData.initial tDirect 5 3 0 aDirect rfl
    (Or.inl (by decide)) (by decide) (by decide)

/-- C4: storing the same constant value twice in succession into a
disabled slot performs exactly one physical write: the first call (value
differs from the slot's cache) stores once, the second call compares
equal, skips reserve and store (empty event trace), leaves the slot
state unchanged, and returns the same byte offset. -/
theorem storeCurrentValue_second_call_cached
    (cv : VertexAttribCurrentValueData) (t t2 : TranslatedAttribute)
    (slot : Nat) (cs : CurrentValueState)
    (t1 : TranslatedAttribute) (cs1 : CurrentValueState) (evs1 : List Ev)
    (hne : cs.data ≠ cv)
    (h1 : storeCurrentValue cv t slot cs = (.ok (t1, cs1), evs1)) :
    evs1 = [Ev.store (BufRef.constantBuf slot)] ∧
    ∃ t2', storeCurrentValue cv t2 slot cs1 = (.ok (t2', cs1), []) ∧
      t2'.offset = t1.offset := by
  unfold storeCurrentValue at h1
  cases hb : cs.buffer with
  | none => rw [hb] at h1; exact absurd h1 (by simp)
  | some buf =>
    rw [hb] at h1
    simp only [if_pos hne] at h1
    cases hr : buf.reserveRes (t.attrib.getD VertexAttribute.init) 1 0 with
    | error e => rw [hr] at h1; exact absurd h1 (by simp)
    | ok u =>
      rw [hr] at h1
      cases hs : buf.storeRes (t.attrib.getD VertexAttribute.init) 0 1 0 with
      | error e => rw [hs] at h1; exact absurd h1 (by simp)
      | ok so =>
        rw [hs] at h1
        simp only [Prod.mk.injEq, Res.ok.injEq] at h1
        obtain ⟨⟨ht1, hcs1⟩, hevs⟩ := h1
        subst hcs1
        constructor
        · exact hevs.symm
        · refine ⟨currentValueRecord t2 cv buf so, ?_, ?_⟩
          · simp [storeCurrentValue, hb]
          · rw [← ht1]
            simp [currentValueRecord]

/-- Witness for C4: after storing `cvRed` into slot 3 (one physical
write, offset 64), a second store of the same value is a cache hit with
no events and the same offset. -/
theorem storeCurrentValue_second_call_cached_witness :
    [Ev.store (BufRef.constantBuf 3)] = [Ev.store (BufRef.constantBuf 3)] ∧
    ∃ t2', storeCurrentValue cvRed TranslatedAttribute.init 3 cs1Fix =
      (.ok (t2', cs1Fix), []) ∧ t2'.offset = t1Fix.offset :=
  storeCurrentValue_second_call_cached cvRed TranslatedAttribute.init
    TranslatedAttribute.init 3 csWithBuf t1Fix cs1Fix
    [Ev.store (BufRef.constantBuf 3)] (by decide) rfl

/-- C8 (amended): in the persistent-cache path of `storeAttribute` (a
populated cache hit at byte offset `so`), the operation fails with
resource exhaustion exactly when the wrapped 32-bit sum
`(so + firstElementOffset + startOffset) mod 2^32` falls below `so`;
every such detected case is a genuine overflow of the unwrapped sum —
but the guard does not fire on every overflow (see the
counterexample). -/
theorem storeAttribute_overflow_guard (w : World)
    (streaming : StreamingVertexBufferInterface)
    (cv : VertexAttribCurrentValueData) (t : TranslatedAttribute)
    (start count instances : Nat) (a : VertexAttribute) (id : Nat)
    (sb : StaticVertexBufferInterface) (oes so : Nat)
    (ht : t.attrib = some a)
    (hid : a.bufferId = some id)
    (hsb : (w.bufs id).staticBuffer = some sb)
    (hdir : directStoragePossibleFor w streaming a cv = false)
    (hsp : sb.spaceReq a = .ok oes)
    (hlk : lookupAttribute sb a = some so) :
    ((storeAttribute w streaming cv t start count instances).1 =
        Res.fail GLerr.outOfMemory ↔
      (so + firstElementOffsetOf a oes + startOffsetOf a start instances oes)
          % U32 < so) ∧
    ((so + firstElementOffsetOf a oes + startOffsetOf a start instances oes)
        % U32 < so →
      U32 ≤ so + firstElementOffsetOf a oes +
        startOffsetOf a start instances oes) := by
  have hcond : ¬(a.bufferId = none ∧ a.pointer = none) := by
    intro hc
    rw [hid] at hc
    exact Option.noConfusion hc.1
  constructor
  · simp only [storeAttribute, ht, Option.getD_some, hcond, if_false]
    simp only [hid, Option.map_some', Option.some_bind, Option.getD_some,
      hsb, hdir, Bool.false_eq_true, ite_false, hsp, hlk]
    unfold storeAttributeStaticTail
    dsimp only
    split
    · rename_i h
      exact iff_of_true rfl h
    · rename_i h
      exact iff_of_false (by simp) h
  · intro hlt
    by_contra hno
    push_neg at hno
    have : (so + firstElementOffsetOf a oes +
        startOffsetOf a start instances oes) % U32 =
        so + firstElementOffsetOf a oes +
          startOffsetOf a start instances oes :=
      Nat.mod_eq_of_lt hno
    omega

/-- C8 counterexample: with a cache hit at offset 0, element size 1,
attribute offset `2^32 - 1` and `start = 1` (an admissible `GLint`,
non-instanced), the additive byte-offset computation overflows the
unsigned 32-bit range (`0 + (2^32-1) + 1 = 2^32`), yet `storeAttribute`
succeeds and silently returns the wrapped offset 0 instead of a
resource-exhaustion failure. -/
theorem storeAttribute_overflow_not_detected :
    U32 ≤ 0 + firstElementOffsetOf a8 1 +
      startOffsetOf a8 1 0 1 ∧
    (storeAttribute w8 okStreaming VertexAttribCurrentValueData.initial
      t8 1 3 0).1.isOk = true ∧
    storeResultOffset (storeAttribute w8 okStreaming
      VertexAttribCurrentValueData.initial t8 1 3 0).1 = 0 := by
  refine ⟨by decide, by decide, by decide⟩

/-- Witness for C8 (amended) at the `a8`/`sbHit` scenario (cache hit at
offset 0, `start = 1`): instantiating the guard characterisation. -/
theorem storeAttribute_overflow_guard_witness :
    ((storeAttribute w8 okStreaming VertexAttribCurrentValueData.initial
        t8 1 3 0).1 = Res.fail GLerr.outOfMemory ↔
      (0 + firstElementOffsetOf a8 1 + startOffsetOf a8 1 0 1)
          % U32 < 0) ∧
    ((0 + firstElementOffsetOf a8 1 + startOffsetOf a8 1 0 1)
        % U32 < 0 →
      U32 ≤ 0 + firstElementOffsetOf a8 1 +
        startOffsetOf a8 1 0 1) :=
  storeAttribute_overflow_guard w8 okStreaming
    VertexAttribCurrentValueData.initial t8 1 3 0 a8 1 sbHit 1 0
    rfl rfl rfl (by decide) rfl (by decide)

/-- C5: for an enabled attribute bound to a server buffer whose
persistent cache is populated (`bufferSize > 0`), the invalidation step
resets the cache to empty exactly when the cached signature does not
match the requested interpretation and direct storage is not possible;
after such a reset, a lookup under the old signature (indeed any
signature) fails. -/
theorem invalidateMatchingStaticData_spec (w : World)
    (a : VertexAttribute) (cv : VertexAttribCurrentValueData) (id : Nat)
    (sb : StaticVertexBufferInterface)
    (hid : a.bufferId = some id)
    (hsb : (w.bufs id).staticBuffer = some sb)
    (hpop : 0 < sb.bufferSize) :
    (((invalidateMatchingStaticData w a cv).bufs id).staticBuffer =
        some { sb with bufferSize := 0, cache := none } ↔
      (lookupAttribute sb a = none ∧ sb.directOk a cv = false)) ∧
    (∀ a2, lookupAttribute { sb with bufferSize := 0, cache := none } a2 =
      none) := by
  constructor
  · unfold invalidateMatchingStaticData
    simp only [hid, hsb]
    split
    · rename_i h
      simp only [invalidateStaticData, hsb, Option.map_some', if_pos rfl]
      exact iff_of_true rfl ⟨h.2.1, h.2.2⟩
    · rename_i h
      push_neg at h
      constructor
      · intro hcontra
        rw [hsb] at hcontra
        have := congrArg (fun o => ((o.map (·.bufferSize)).getD 1 : Nat))
          hcontra
        simp only [Option.map_some', Option.getD_some] at this
        omega
      · intro hc
        exact absurd (h hpop hc.1) (by simp [hc.2])
  · intro a2
    unfold lookupAttribute
    rfl

/-- Witness for C5: a populated cache (`sbHit`) queried with a
non-matching attribute (`aDirect`, whose signature differs from the
cached `a8` signature) and no direct storage: the cache is reset, and
lookups fail afterwards. -/
theorem invalidateMatchingStaticData_spec_witness :
    ((((invalidateMatchingStaticData w8 aDirect
          VertexAttribCurrentValueData.initial).bufs 2).staticBuffer =
        some { sbHit with bufferSize := 0, cache := none } ↔
      (lookupAttribute sbHit aDirect = none ∧
        sbHit.directOk aDirect VertexAttribCurrentValueData.initial =
          false)) ∧
    (∀ a2, lookupAttribute { sbHit with bufferSize := 0, cache := none }
      a2 = none)) ∧
    lookupAttribute sbHit aDirect = none :=
  ⟨invalidateMatchingStaticData_spec w8 aDirect
      VertexAttribCurrentValueData.initial 2 sbHit rfl rfl (by decide),
    by decide⟩

/-- C7: for an enabled server-buffer attribute with an empty persistent
cache and no direct storage, the reservation step reserves space in the
persistent cache sized by `ElementsInBuffer` over the whole source
buffer; and that count is exactly the spec formula
`floor((S' - offset mod stride + (stride - elemSize)) / stride)` with
`S'` the buffer size clamped to the signed-range maximum (stated with
mathematical floor division under the side condition that the numerator
is non-negative). -/
theorem reserveSpaceForAttrib_empty_cache (w : World)
    (streaming : StreamingVertexBufferInterface) (a : VertexAttribute)
    (cv : VertexAttribCurrentValueData) (count instances : Nat) (id : Nat)
    (sb : StaticVertexBufferInterface)
    (hid : a.bufferId = some id)
    (hsb : (w.bufs id).staticBuffer = some sb)
    (hdir : directStoragePossibleFor w streaming a cv = false)
    (hempty : sb.bufferSize = 0)
    (hnum : 0 ≤ ((min (w.bufs id).size INT_MAX : Nat) : Int) -
      ((a.offset : Int)).emod (ComputeVertexAttributeStride a) +
      ((ComputeVertexAttributeStride a : Int) -
        (ComputeVertexAttributeTypeSize a : Int))) :
    (reserveSpaceForAttrib w streaming a cv count instances).2 =
      [Ev.reserve (BufRef.staticBuf id)
        (ElementsInBuffer a (w.bufs id).size)] ∧
    ElementsInBuffer a (w.bufs id).size =
      (((min (w.bufs id).size INT_MAX : Nat) : Int) -
        ((a.offset : Int)).emod (ComputeVertexAttributeStride a) +
        ((ComputeVertexAttributeStride a : Int) -
          (ComputeVertexAttributeTypeSize a : Int))).ediv
        (ComputeVertexAttributeStride a) := by
  have hstride : (0 : Int) ≤ (ComputeVertexAttributeStride a : Int) := by
    positivity
  have hmod : ((a.offset : Int)).tmod (ComputeVertexAttributeStride a) =
      ((a.offset : Int)).emod (ComputeVertexAttributeStride a) :=
    Int.tmod_eq_emod (by positivity) hstride
  constructor
  · unfold reserveSpaceForAttrib
    rw [hdir]
    simp only [Bool.false_eq_true, ite_false, hid, Option.map_some',
      Option.some_bind, Option.getD_some, hsb]
    rw [if_pos hempty]
    split <;> rfl
  · show (((min (w.bufs id).size INT_MAX : Nat) : Int) -
        ((a.offset : Int)).tmod (ComputeVertexAttributeStride a) +
        ((ComputeVertexAttributeStride a : Int) -
          (ComputeVertexAttributeTypeSize a : Int))).tdiv
        (ComputeVertexAttributeStride a) = _
    rw [hmod]
    exact Int.tdiv_eq_ediv hnum hstride

/-- Witness for C7: buffer 2 (`bDirect`, size 100) rebound behind a
world where its cache is empty and direct storage impossible: the
reserve event covers the whole buffer (12 elements of stride 8). -/
theorem reserveSpaceForAttrib_empty_cache_witness :
    (reserveSpaceForAttrib wNoDirect okStreaming aDirect
        VertexAttribCurrentValueData.initial 3 0).2 =
      [Ev.reserve (BufRef.staticBuf 2)
        (ElementsInBuffer aDirect (wNoDirect.bufs 2).size)] ∧
    ElementsInBuffer aDirect (wNoDirect.bufs 2).size =
      (((min (wNoDirect.bufs 2).size INT_MAX : Nat) : Int) -
        ((aDirect.offset : Int)).emod (ComputeVertexAttributeStride
          aDirect) +
        ((ComputeVertexAttributeStride aDirect : Int) -
          (ComputeVertexAttributeTypeSize aDirect : Int))).ediv
        (ComputeVertexAttributeStride aDirect) :=
  reserveSpaceForAttrib_empty_cache wNoDirect okStreaming aDirect
    VertexAttribCurrentValueData.initial 3 0 2 sbNoDirect rfl rfl
    (by decide) rfl (by decide)

/- ### List helper lemmas -/

theorem getD_set_ne {α : Type} (l : List α) (i j : Nat) (x d : α)
    (h : i ≠ j) : (l.set i x).getD j d = l.getD j d := by
  simp [List.getD_eq_getElem?_getD, List.getElem?_set_ne h]

theorem getD_set_self {α : Type} (l : List α) (i : Nat) (x d : α)
    (h : i < l.length) : (l.set i x).getD i d = x := by
  simp [List.getD_eq_getElem?_getD, List.getElem?_set_eq_of_lt x h]

theorem getD_map_range {α : Type} (n i : Nat) (f : Nat → α) (d : α)
    (h : i < n) : ((List.range n).map f).getD i d = f i := by
  simp [List.getD_eq_getElem?_getD, List.getElem?_map,
    List.getElem?_range h]

theorem getD_of_le_length {α : Type} (l : List α) (i : Nat) (d : α)
    (h : l.length ≤ i) : l.getD i d = d := by
  rw [List.getD_eq_getElem?_getD, List.getElem?_eq_none h]
  rfl

theorem getD_mem_of_lt {α : Type} (l : List α) (n : Nat) (d : α)
    (h : n < l.length) : l.getD n d ∈ l := by
  rw [List.getD_eq_getElem?_getD, List.getElem?_eq_getElem h]
  exact List.getElem_mem h

/- ### Structural lemmas about the embedded passes -/

/-- The first pass writes each slot's record pointwise. -/
theorem activityLoop_fst (st : GLContextState) (l : List Nat) (w : World) :
    (activityLoop st l w).1 = l.map (initSlot st) := by
  induction l generalizing w with
  | nil => rfl
  | cons i rest ih =>
    unfold activityLoop
    simp only [List.map_cons]
    rw [← ih ((if (initSlot st i).active &&
        (st.attrs.getD i VertexAttribute.init).enabled then
      invalidateMatchingStaticData w
        (st.attrs.getD i VertexAttribute.init)
        (st.currentValues.getD i VertexAttribCurrentValueData.initial)
    else w))]

/-- A successful `storeAttribute` keeps the record's attribute
reference. -/
theorem storeAttribute_attrib_eq (w : World)
    (streaming : StreamingVertexBufferInterface)
    (cv : VertexAttribCurrentValueData) (t : TranslatedAttribute)
    (start count instances : Nat) (t' : TranslatedAttribute) (w' : World)
    (h : (storeAttribute w streaming cv t start count instances).1 =
      .ok (t', w')) : t'.attrib = t.attrib := by
  unfold storeAttribute storeAttributeStaticTail at h
  dsimp only at h
  repeat' split at h
  all_goals try simp_all
  all_goals obtain ⟨h1, h2⟩ := h
  all_goals rw [← h1]

/-- A successful `storeAttribute` does not touch the constant-value
cache. -/
theorem storeAttribute_cache_eq (w : World)
    (streaming : StreamingVertexBufferInterface)
    (cv : VertexAttribCurrentValueData) (t : TranslatedAttribute)
    (start count instances : Nat) (t' : TranslatedAttribute) (w' : World)
    (h : (storeAttribute w streaming cv t start count instances).1 =
      .ok (t', w')) :
    w'.currentValueCache = w.currentValueCache := by
  unfold storeAttribute storeAttributeStaticTail at h
  dsimp only at h
  repeat' split at h
  all_goals try simp_all
  all_goals obtain ⟨h1, h2⟩ := h
  all_goals rw [← h2]

/-- `storeAttribute` aborts fatally only at its source assertion, and
only when the attribute has neither a bound buffer nor a client
pointer. -/
theorem storeAttribute_fatal_source (w : World)
    (streaming : StreamingVertexBufferInterface)
    (cv : VertexAttribCurrentValueData) (t : TranslatedAttribute)
    (start count instances : Nat) (site : AssertSite)
    (h : (storeAttribute w streaming cv t start count instances).1 =
      .fatal site) :
    (t.attrib.getD VertexAttribute.init).bufferId = none ∧
      (t.attrib.getD VertexAttribute.init).pointer = none := by
  unfold storeAttribute storeAttributeStaticTail at h
  dsimp only at h
  repeat' split at h
  all_goals simp_all

/-- `storeCurrentValue` aborts fatally only at its null-buffer
dereference. -/
theorem storeCurrentValue_fatal_site
    (cv : VertexAttribCurrentValueData) (t : TranslatedAttribute)
    (slot : Nat) (cs : CurrentValueState) (site : AssertSite)
    (h : (storeCurrentValue cv t slot cs).1 = .fatal site) :
    site = .currentValueBufferNull := by
  unfold storeCurrentValue at h
  dsimp only at h
  repeat' split at h
  all_goals simp_all

/-- A successful `storeCurrentValue` keeps the record's attribute
reference. -/
theorem storeCurrentValue_attrib_eq
    (cv : VertexAttribCurrentValueData) (t : TranslatedAttribute)
    (slot : Nat) (cs : CurrentValueState) (t' : TranslatedAttribute)
    (cs' : CurrentValueState)
    (h : (storeCurrentValue cv t slot cs).1 = .ok (t', cs')) :
    t'.attrib = t.attrib := by
  unfold storeCurrentValue at h
  dsimp only at h
  repeat' split at h
  all_goals try simp_all
  all_goals obtain ⟨h1, h2⟩ := h
  all_goals rw [← h1]
  all_goals rfl

/-- Shape of every record a successful `storeCurrentValue` emits:
divisor 0, stride 0, no source buffer, identity and offset of the slot's
private constant-value buffer. -/
theorem storeCurrentValue_ok_shape
    (cv : VertexAttribCurrentValueData) (t : TranslatedAttribute)
    (slot : Nat) (cs : CurrentValueState) (t' : TranslatedAttribute)
    (cs' : CurrentValueState)
    (h : (storeCurrentValue cv t slot cs).1 = .ok (t', cs')) :
    t'.divisor = 0 ∧ t'.stride = 0 ∧ t'.storage = none ∧
      ∃ buf, cs.buffer = some buf ∧ cs'.buffer = some buf ∧
        t'.serial = buf.serial := by
  unfold storeCurrentValue at h
  dsimp only at h
  repeat' split at h
  all_goals try simp_all
  all_goals obtain ⟨h1, h2⟩ := h
  all_goals subst h2
  all_goals subst h1
  all_goals simp_all [currentValueRecord]

/-- `reserveSpaceForAttrib` aborts fatally only at its element-count
assertion. -/
theorem reserveSpaceForAttrib_fatal_site (w : World)
    (streaming : StreamingVertexBufferInterface) (a : VertexAttribute)
    (cv : VertexAttribCurrentValueData) (count instances : Nat)
    (site : AssertSite)
    (h : (reserveSpaceForAttrib w streaming a cv count instances).1 =
      .fatal site) : site = .reserveElementCount := by
  unfold reserveSpaceForAttrib at h
  dsimp only at h
  repeat' split at h
  all_goals simp_all

/-- The reservation pass aborts fatally only at the element-count
assertion. -/
theorem reserveLoop_fatal_site
    (streaming : StreamingVertexBufferInterface) (st : GLContextState)
    (count instances : Nat) (l : List Nat) (w : World)
    (ts : List TranslatedAttribute) (site : AssertSite)
    (h : (reserveLoop streaming st count instances l w ts).1 =
      .fatal site) : site = .reserveElementCount := by
  induction l with
  | nil => exact absurd h (by simp [reserveLoop])
  | cons i rest ih =>
    unfold reserveLoop at h
    dsimp only at h
    split at h
    · rcases hr : reserveSpaceForAttrib w streaming
          ((ts.getD i TranslatedAttribute.init).attrib.getD
            VertexAttribute.init)
          (st.currentValues.getD i VertexAttribCurrentValueData.initial)
          count instances with ⟨r, evs⟩
      rw [hr] at h
      cases r with
      | ok u =>
        simp only at h
        rcases hrec : reserveLoop streaming st count instances rest w ts
          with ⟨res, evs'⟩
        rw [hrec] at h
        simp only at h
        apply ih
        rw [hrec]
        exact h
      | fail e => simp at h
      | fatal s =>
        simp only at h
        have h2 : s = site := by simpa using h
        subst h2
        exact reserveSpaceForAttrib_fatal_site _ _ _ _ _ _ _ (by rw [hr])
    · exact ih h

/-- A successful `storeSlot` keeps the record's attribute reference. -/
theorem storeSlot_attrib_eq (env : Env)
    (streaming : StreamingVertexBufferInterface) (st : GLContextState)
    (start count instances i : Nat) (w : World) (t t' : TranslatedAttribute)
    (w' : World) (evs : List Ev)
    (h : storeSlot env streaming st start count instances i w t =
      (.ok t', w', evs)) : t'.attrib = t.attrib := by
  unfold storeSlot at h
  dsimp only at h
  split at h
  · split at h
    · rename_i t2 w2 evs2 heq
      simp only [Prod.mk.injEq, Res.ok.injEq] at h
      rw [← h.1]
      exact storeAttribute_attrib_eq w streaming _ t start count instances
        t2 w2 (by rw [heq])
    · simp at h
    · simp at h
  · split at h
    · rename_i t2 cs2 evs2 heq
      simp only [Prod.mk.injEq, Res.ok.injEq] at h
      rw [← h.1]
      exact storeCurrentValue_attrib_eq _ t i _ t2 cs2 (by rw [heq])
    · simp at h
    · simp at h

/-- `storeSlot` aborts at the `storeAttribute` source assertion only for
an enabled attribute with neither source. -/
theorem storeSlot_fatal_source (env : Env)
    (streaming : StreamingVertexBufferInterface) (st : GLContextState)
    (start count instances i : Nat) (w : World) (t : TranslatedAttribute)
    (w' : World) (evs : List Ev)
    (h : storeSlot env streaming st start count instances i w t =
      (.fatal .storeAttribSource, w', evs)) :
    (t.attrib.getD VertexAttribute.init).enabled = true ∧
      (t.attrib.getD VertexAttribute.init).bufferId = none ∧
      (t.attrib.getD VertexAttribute.init).pointer = none := by
  unfold storeSlot at h
  dsimp only at h
  by_cases hen : (t.attrib.getD VertexAttribute.init).enabled = true
  · rw [if_pos hen] at h
    split at h
    · simp at h
    · simp at h
    · rename_i s2 evs2 heq
      simp only [Prod.mk.injEq, Res.fatal.injEq] at h
      exact ⟨hen, storeAttribute_fatal_source w streaming _ t start count
        instances _ (by rw [heq, h.1])⟩
  · rw [if_neg hen] at h
    split at h
    · simp at h
    · simp at h
    · rename_i s2 evs2 heq
      simp only [Prod.mk.injEq, Res.fatal.injEq] at h
      have := storeCurrentValue_fatal_site _ t i _ s2 (by rw [heq])
      rw [this] at h
      exact absurd h.1 (by decide)

/-- The store pass never trips the `storeAttribute` source assertion
when every enabled attribute of the vertex array has a source, provided
every slot record (as maintained by the pass) references either nothing
or its slot's attribute descriptor. -/
theorem storeLoop_not_fatal_source (env : Env)
    (streaming : StreamingVertexBufferInterface) (st : GLContextState)
    (start count instances : Nat) (l : List Nat) :
    ∀ (w : World) (ts : List TranslatedAttribute),
    (∀ j, (ts.getD j TranslatedAttribute.init).attrib = none ∨
      (ts.getD j TranslatedAttribute.init).attrib =
        some (st.attrs.getD j VertexAttribute.init)) →
    (∀ a ∈ st.attrs, a.enabled = true →
      (a.bufferId ≠ none ∨ a.pointer ≠ none)) →
    (storeLoop env streaming st start count instances l w ts).1 ≠
      .fatal .storeAttribSource := by
  induction l with
  | nil =>
    intro w ts _ _ h
    simp [storeLoop] at h
  | cons i rest ih =>
    intro w ts hQ hpre h
    unfold storeLoop at h
    dsimp only at h
    split at h
    · -- the slot is active
      split at h
      · -- storeSlot succeeded: recurse
        rename_i t2 w2 evs2 heq
        rcases hrec : storeLoop env streaming st start count instances
          rest w2 (ts.set i t2) with ⟨res, w3, ts3, evs3⟩
        rw [hrec] at h
        dsimp only at h
        refine ih w2 (ts.set i t2) ?_ hpre ?_
        · intro j
          rcases Nat.lt_or_ge i ts.length with hlen | hlen
          · rcases eq_or_ne j i with rfl | hne
            · rw [getD_set_self ts j t2 _ hlen]
              have := storeSlot_attrib_eq env streaming st start count
                instances j w (ts.getD j TranslatedAttribute.init) t2 w2
                evs2 heq
              rw [this]
              exact hQ j
            · rw [getD_set_ne ts i j t2 _ (Ne.symm hne)]
              exact hQ j
          · rw [List.set_eq_of_length_le hlen]
            exact hQ j
        · rw [hrec]
          exact h
      · -- storeSlot failed: the loop returns the failure
        exact absurd h (by simp)
      · -- storeSlot fatal
        rename_i s2 w2 evs2 heq
        have hs : s2 = .storeAttribSource := by simpa using h
        subst hs
        have h2 := storeSlot_fatal_source env streaming st start count
          instances i w (ts.getD i TranslatedAttribute.init) w2 evs2 heq
        rcases hQ i with hnone | hsome
        · rw [hnone] at h2
          simp only [Option.getD_none] at h2
          exact absurd h2.1 (by decide)
        · rw [hsome] at h2
          simp only [Option.getD_some] at h2
          rcases Nat.lt_or_ge i st.attrs.length with hlen | hlen
          · have hmem : st.attrs.getD i VertexAttribute.init ∈ st.attrs :=
              getD_mem_of_lt _ _ _ hlen
            rcases hpre _ hmem h2.1 with hb | hp
            · exact hb h2.2.1
            · exact hp h2.2.2
          · rw [getD_of_le_length _ _ _ hlen] at h2
            exact absurd h2.1 (by decide)
    · exact ih w ts hQ hpre h

/-- C9: under the precondition that every enabled attribute has a source
(client pointer or bound server buffer), `prepareVertexData` never trips
the fatal source assertion of `storeAttribute` for any active attribute
processed in the store pass. -/
theorem prepareVertexData_no_source_assert (env : Env) (w : World)
    (st : GLContextState) (start count instances : Nat)
    (hpre : ∀ a ∈ st.attrs, a.enabled = true →
      (a.bufferId ≠ none ∨ a.pointer ≠ none)) :
    (prepareVertexData env w st start count instances).1 ≠
      .fatal .storeAttribSource := by
  intro h
  unfold prepareVertexData at h
  cases hsb : w.streamingBuffer with
  | none =>
    rw [hsb] at h
    simp at h
  | some streaming =>
    rw [hsb] at h
    dsimp only at h
    rcases hA : activityLoop st (List.range st.attrs.length) w
      with ⟨ts0, w1⟩
    rw [hA] at h
    dsimp only at h
    have hts0 : ts0 = (List.range st.attrs.length).map (initSlot st) := by
      have := activityLoop_fst st (List.range st.attrs.length) w
      rw [hA] at this
      exact this
    have hQ : ∀ j, (ts0.getD j TranslatedAttribute.init).attrib = none ∨
        (ts0.getD j TranslatedAttribute.init).attrib =
          some (st.attrs.getD j VertexAttribute.init) := by
      intro j
      rw [hts0]
      rcases Nat.lt_or_ge j st.attrs.length with hj | hj
      · rw [getD_map_range _ _ _ _ hj]
        unfold initSlot
        dsimp only
        split
        · exact Or.inr rfl
        · exact Or.inl rfl
      · rw [getD_of_le_length]
        · exact Or.inl rfl
        · simpa using hj
    rcases hR : reserveLoop streaming st count instances
        (List.range MAX_VERTEX_ATTRIBS) w1 ts0 with ⟨r, evsR⟩
    rw [hR] at h
    cases r with
    | fail e =>
      dsimp only at h
      simp at h
    | fatal s =>
      dsimp only at h
      have hs : s = .storeAttribSource := by simpa using h
      have hsite := reserveLoop_fatal_site streaming st count instances _
        w1 ts0 s (by rw [hR])
      rw [hsite] at hs
      exact absurd hs (by decide)
    | ok u =>
      dsimp only at h
      rcases hS : storeLoop env streaming st start count instances
          (List.range MAX_VERTEX_ATTRIBS) w1 ts0 with ⟨res, w2, ts2, evsS⟩
      rw [hS] at h
      cases res with
      | ok u2 =>
        dsimp only at h
        simp at h
      | fail e =>
        dsimp only at h
        simp at h
      | fatal s =>
        dsimp only at h
        have hs : s = .storeAttribSource := by simpa using h
        subst hs
        have hnf := storeLoop_not_fatal_source env streaming st start
          count instances (List.range MAX_VERTEX_ATTRIBS) w1 ts0 hQ hpre
        rw [hS] at hnf
        exact hnf rfl

/-- Witness for C9: the `stOk` fixture satisfies the source
precondition, so its `prepareVertexData` run cannot hit the fatal
source assertion. -/
theorem prepareVertexData_no_source_assert_witness :
    (prepareVertexData envX wOk stOk 5 3 0).1 ≠
      .fatal .storeAttribSource :=
  prepareVertexData_no_source_assert envX wOk stOk 5 3 0 (by decide)

/-- C1 counterexample: when the reservation pass fails (the streaming
buffer cannot reserve space for the enabled client attribute of slot 0),
`prepareVertexData` returns the resource-exhaustion failure without
issuing any unmap hint — in particular none for the streaming buffer it
touched — refuting the claim that every exit path issues the unmap
hints. -/
theorem prepareVertexData_reserve_failure_no_unmap :
    (prepareVertexData envX wC1 stC1 0 3 0).1 = .fail .outOfMemory ∧
    Ev.unmap BufRef.streaming ∉
      (prepareVertexData envX wC1 stC1 0 3 0).2.2 := by
  constructor
  · decide
  · decide

/-- C1 (amended): on every exit of `prepareVertexData` from the store
pass onward — a store-step failure or the successful return — an unmap
hint is issued to every buffer touched this pass (the streaming buffer,
every persistent cache of an enabled attribute's server buffer, and
every existing constant-value buffer); a reservation-pass failure,
however, returns without the hints (see the counterexample). -/
theorem prepareVertexData_unmap_after_store (env : Env) (w : World)
    (st : GLContextState) (start count instances : Nat)
    (streaming : StreamingVertexBufferInterface)
    (hsb : w.streamingBuffer = some streaming)
    (hres : (reserveLoop streaming st count instances
        (List.range MAX_VERTEX_ATTRIBS)
        (activityLoop st (List.range st.attrs.length) w).2
        (activityLoop st (List.range st.attrs.length) w).1).1 = .ok ())
    (hnf : (prepareVertexData env w st start count instances).1.isFatal =
      false) :
    ∀ e ∈ hintUnmapAllResources st.attrs
        (prepareVertexData env w st start count instances).2.1,
      e ∈ (prepareVertexData env w st start count instances).2.2 := by
  intro e he
  unfold prepareVertexData at he hnf ⊢
  rw [hsb] at he hnf ⊢
  dsimp only at he hnf ⊢
  rcases hA : activityLoop st (List.range st.attrs.length) w
    with ⟨ts0, w1⟩
  try rw [hA] at hres
  try rw [hA] at he
  try rw [hA] at hnf
  try rw [hA]
  dsimp only at he hnf hres ⊢
  rcases hR : reserveLoop streaming st count instances
      (List.range MAX_VERTEX_ATTRIBS) w1 ts0 with ⟨r, evsR⟩
  try rw [hR] at hres
  try rw [hR] at he
  try rw [hR] at hnf
  try rw [hR]
  have hres2 : r = Res.ok () := by simpa using hres
  subst hres2
  dsimp only at he hnf ⊢
  rcases hS : storeLoop env streaming st start count instances
      (List.range MAX_VERTEX_ATTRIBS) w1 ts0 with ⟨res, w2, ts2, evsS⟩
  try rw [hS] at he
  try rw [hS] at hnf
  try rw [hS]
  cases res with
  | fatal s =>
    dsimp only at hnf
    simp [Res.isFatal] at hnf
  | fail e2 =>
    dsimp only at he ⊢
    simp only [List.mem_append]
    exact Or.inr he
  | ok u =>
    dsimp only at he ⊢
    simp only [List.mem_append]
    exact Or.inl (Or.inr he)

/-- Witness for C1 (amended): the successful `stOk` run issues the unmap
hint for the streaming buffer it touched. -/
theorem prepareVertexData_unmap_after_store_witness :
    Ev.unmap BufRef.streaming ∈
      (prepareVertexData envX wOk stOk 5 3 0).2.2 :=
  prepareVertexData_unmap_after_store envX wOk stOk 5 3 0 okStreaming rfl
    (by decide) (by decide) (Ev.unmap BufRef.streaming) (by decide)

/-- `storeSlot` touches no constant-value cache entry other than its
own slot, and keeps the cache length. -/
theorem storeSlot_cache_untouched (env : Env)
    (streaming : StreamingVertexBufferInterface) (st : GLContextState)
    (start count instances i : Nat) (w : World) (t : TranslatedAttribute)
    (r : Res TranslatedAttribute) (w' : World) (evs : List Ev)
    (h : storeSlot env streaming st start count instances i w t =
      (r, w', evs)) (j : Nat) (hj : j ≠ i) :
    w'.currentValueCache.getD j CurrentValueState.init =
      w.currentValueCache.getD j CurrentValueState.init ∧
    w'.currentValueCache.length = w.currentValueCache.length := by
  unfold storeSlot at h
  dsimp only at h
  split at h
  · split at h
    · rename_i t2 w2 evs2 heq
      simp only [Prod.mk.injEq] at h
      rw [← h.2.1]
      rw [storeAttribute_cache_eq w streaming _ t start count instances
        t2 w2 (by rw [heq])]
      exact ⟨rfl, rfl⟩
    · rename_i e2 evs2 heq
      simp only [Prod.mk.injEq] at h
      rw [← h.2.1]
      exact ⟨rfl, rfl⟩
    · rename_i s2 evs2 heq
      simp only [Prod.mk.injEq] at h
      rw [← h.2.1]
      exact ⟨rfl, rfl⟩
  · split at h
    · rename_i t2 cs2 evs2 heq
      simp only [Prod.mk.injEq] at h
      rw [← h.2.1]
      constructor
      · dsimp only
        rw [getD_set_ne _ _ _ _ _ (Ne.symm hj),
          getD_set_ne _ _ _ _ _ (Ne.symm hj)]
      · simp
    · rename_i e2 evs2 heq
      simp only [Prod.mk.injEq] at h
      rw [← h.2.1]
      constructor
      · dsimp only
        rw [getD_set_ne _ _ _ _ _ (Ne.symm hj)]
      · simp
    · rename_i s2 evs2 heq
      simp only [Prod.mk.injEq] at h
      rw [← h.2.1]
      constructor
      · dsimp only
        rw [getD_set_ne _ _ _ _ _ (Ne.symm hj)]
      · simp

/-- A successful `storeSlot` on a disabled slot emits the
constant-value record: divisor 0, stride 0, no source buffer, and the
slot's private buffer identity, which the updated world's cache entry
for that slot also holds. -/
theorem storeSlot_disabled_shape (env : Env)
    (streaming : StreamingVertexBufferInterface) (st : GLContextState)
    (start count instances i : Nat) (w : World) (t t' : TranslatedAttribute)
    (w' : World) (evs : List Ev)
    (hen : ((t.attrib.getD VertexAttribute.init)).enabled = false)
    (hlen : i < w.currentValueCache.length)
    (h : storeSlot env streaming st start count instances i w t =
      (.ok t', w', evs)) :
    t'.divisor = 0 ∧ t'.stride = 0 ∧ t'.storage = none ∧
      ∃ b, (w'.currentValueCache.getD i CurrentValueState.init).buffer =
          some b ∧ t'.serial = b.serial := by
  unfold storeSlot at h
  dsimp only at h
  rw [if_neg (by rw [hen]; exact Bool.false_ne_true)] at h
  split at h
  · rename_i t2 cs2 evs2 heq
    simp only [Prod.mk.injEq, Res.ok.injEq] at h
    obtain ⟨ht2, hw2, _⟩ := h
    subst ht2
    have hshape := storeCurrentValue_ok_shape _ t i _ t2 cs2 (by rw [heq])
    obtain ⟨hd, hs, hst, buf, hb1, hb2, hser⟩ := hshape
    refine ⟨hd, hs, hst, buf, ?_, hser⟩
    rw [← hw2]
    dsimp only
    rw [getD_set_self]
    · rw [hb2]
    · simpa using hlen
  · simp at h
  · simp at h

/-- The store pass leaves the record and cache entry of every slot not
in its index list unchanged, and keeps the cache length. -/
theorem storeLoop_untouched (env : Env)
    (streaming : StreamingVertexBufferInterface) (st : GLContextState)
    (start count instances : Nat) (l : List Nat) :
    ∀ (w : World) (ts : List TranslatedAttribute) (j : Nat), j ∉ l →
    ∀ res w2 ts2 evs,
    storeLoop env streaming st start count instances l w ts =
      (res, w2, ts2, evs) →
    ts2.getD j TranslatedAttribute.init = ts.getD j TranslatedAttribute.init ∧
    w2.currentValueCache.getD j CurrentValueState.init =
      w.currentValueCache.getD j CurrentValueState.init ∧
    w2.currentValueCache.length = w.currentValueCache.length := by
  induction l with
  | nil =>
    intro w ts j _ res w2 ts2 evs h
    simp only [storeLoop, Prod.mk.injEq] at h
    rw [← h.2.1, ← h.2.2.1]
    exact ⟨rfl, rfl, rfl⟩
  | cons i rest ih =>
    intro w ts j hj res w2 ts2 evs h
    have hji : j ≠ i := fun hc => hj (hc ▸ List.mem_cons_self i rest)
    have hjr : j ∉ rest := fun hc => hj (List.mem_cons_of_mem i hc)
    unfold storeLoop at h
    dsimp only at h
    split at h
    · split at h
      · rename_i t2 w' evs2 heq
        rcases hrec : storeLoop env streaming st start count instances
          rest w' (ts.set i t2) with ⟨res3, w3, ts3, evs3⟩
        rw [hrec] at h
        dsimp only at h
        simp only [Prod.mk.injEq] at h
        obtain ⟨_, hw, hts, _⟩ := h
        subst hw
        subst hts
        have hu := storeSlot_cache_untouched env streaming st start count
          instances i w (ts.getD i TranslatedAttribute.init) _ w' evs2
          heq j hji
        have hr := ih w' (ts.set i t2) j hjr res3 w3 ts3 evs3 hrec
        refine ⟨?_, ?_, ?_⟩
        · rw [hr.1, getD_set_ne _ _ _ _ _ (Ne.symm hji)]
        · rw [hr.2.1, hu.1]
        · rw [hr.2.2, hu.2]
      · rename_i e2 w' evs2 heq
        simp only [Prod.mk.injEq] at h
        obtain ⟨_, hw, hts, _⟩ := h
        subst hw
        subst hts
        have hu := storeSlot_cache_untouched env streaming st start count
          instances i w (ts.getD i TranslatedAttribute.init) _ w' evs2
          heq j hji
        exact ⟨rfl, hu.1, hu.2⟩
      · rename_i s2 w' evs2 heq
        simp only [Prod.mk.injEq] at h
        obtain ⟨_, hw, hts, _⟩ := h
        subst hw
        subst hts
        have hu := storeSlot_cache_untouched env streaming st start count
          instances i w (ts.getD i TranslatedAttribute.init) _ w' evs2
          heq j hji
        exact ⟨rfl, hu.1, hu.2⟩
    · exact ih w ts j hjr res w2 ts2 evs h

/-- A successful store pass writes the constant-value record shape into
every active disabled slot it processes, and leaves the slot's private
buffer in the final cache. -/
theorem storeLoop_disabled_slot (env : Env)
    (streaming : StreamingVertexBufferInterface) (st : GLContextState)
    (start count instances : Nat) (l : List Nat) :
    ∀ (w : World) (ts : List TranslatedAttribute) (i : Nat),
    l.Nodup → i ∈ l →
    (ts.getD i TranslatedAttribute.init).active = true →
    ((ts.getD i TranslatedAttribute.init).attrib.getD
      VertexAttribute.init).enabled = false →
    i < w.currentValueCache.length →
    ∀ w2 ts2 evs,
    storeLoop env streaming st start count instances l w ts =
      (.ok (), w2, ts2, evs) →
    (ts2.getD i TranslatedAttribute.init).divisor = 0 ∧
    (ts2.getD i TranslatedAttribute.init).stride = 0 ∧
    (ts2.getD i TranslatedAttribute.init).storage = none ∧
    ∃ b, (w2.currentValueCache.getD i CurrentValueState.init).buffer =
        some b ∧
      (ts2.getD i TranslatedAttribute.init).serial = b.serial := by
  induction l with
  | nil =>
    intro w ts i _ hmem
    exact absurd hmem (List.not_mem_nil i)
  | cons j rest ih =>
    intro w ts i hnd hmem hact hen hlen w2 ts2 evs h
    rcases List.mem_cons.mp hmem with rfl | hirest
    · -- the head of the list is our slot
      unfold storeLoop at h
      dsimp only at h
      rw [if_pos hact] at h
      split at h
      · rename_i t2 w' evs2 heq
        rcases hrec : storeLoop env streaming st start count instances
          rest w' (ts.set i t2) with ⟨res3, w3, ts3, evs3⟩
        rw [hrec] at h
        dsimp only at h
        simp only [Prod.mk.injEq] at h
        obtain ⟨_, hw, hts, _⟩ := h
        subst hw
        subst hts
        have hshape := storeSlot_disabled_shape env streaming st start
          count instances i w (ts.getD i TranslatedAttribute.init) t2 w'
          evs2 hen hlen heq
        have hnr : i ∉ rest := (List.nodup_cons.mp hnd).1
        have hu := storeLoop_untouched env streaming st start count
          instances rest w' (ts.set i t2) i hnr res3 w3 ts3 evs3 hrec
        have hits : i < ts.length := by
          by_contra hge
          push_neg at hge
          rw [getD_of_le_length _ _ _ hge] at hact
          exact absurd hact (by decide)
        rw [hu.1, getD_set_self _ _ _ _ hits]
        obtain ⟨hd, hs, hst, b, hb, hser⟩ := hshape
        exact ⟨hd, hs, hst, b, by rw [hu.2.1]; exact hb, hser⟩
      · simp at h
      · simp at h
    · -- our slot is further down the list
      have hji : j ≠ i := by
        rintro rfl
        exact (List.nodup_cons.mp hnd).1 hirest
      have hndr : rest.Nodup := (List.nodup_cons.mp hnd).2
      unfold storeLoop at h
      dsimp only at h
      split at h
      · split at h
        · rename_i t2 w' evs2 heq
          rcases hrec : storeLoop env streaming st start count instances
            rest w' (ts.set j t2) with ⟨res3, w3, ts3, evs3⟩
          rw [hrec] at h
          dsimp only at h
          simp only [Prod.mk.injEq] at h
          obtain ⟨hres3, hw, hts, _⟩ := h
          subst hw
          subst hts
          have hu := storeSlot_cache_untouched env streaming st start
            count instances j w (ts.getD j TranslatedAttribute.init) _ w'
            evs2 heq i (Ne.symm hji)
          refine ih w' (ts.set j t2) i hndr hirest ?_ ?_ ?_ w3 ts3 evs3 ?_
          · rw [getD_set_ne _ _ _ _ _ hji]
            exact hact
          · rw [getD_set_ne _ _ _ _ _ hji]
            exact hen
          · rw [hu.2]
            exact hlen
          · rw [hrec, hres3]
        · simp at h
        · simp at h
      · exact ih w ts i hndr hirest hact hen hlen w2 ts2 evs h

/-- The first pass only invalidates persistent caches: it leaves the
constant-value cache (and the streaming buffer) unchanged. -/
theorem activityLoop_cache (st : GLContextState) (l : List Nat)
    (w : World) :
    (activityLoop st l w).2.currentValueCache = w.currentValueCache := by
  induction l generalizing w with
  | nil => rfl
  | cons i rest ih =>
    unfold activityLoop
    dsimp only
    rw [ih]
    split
    · unfold invalidateMatchingStaticData
      split
      · rfl
      · dsimp only
        split
        · rfl
        · split
          · rfl
          · rfl
    · rfl

/-- C10: every active disabled slot of a successful `prepareVertexData`
carries divisor 0, stride 0, no source-buffer reference, and the serial
of the slot's private constant-value buffer — regardless of the divisor
and stride declared in the slot's attribute descriptor. -/
theorem prepareVertexData_disabled_slot (env : Env) (w : World)
    (st : GLContextState) (start count instances i : Nat)
    (ts : List TranslatedAttribute)
    (hi : i < MAX_VERTEX_ATTRIBS)
    (hil : i < st.attrs.length)
    (hact : st.programActive i = true)
    (hdis : (st.attrs.getD i VertexAttribute.init).enabled = false)
    (hlen : i < w.currentValueCache.length)
    (hok : (prepareVertexData env w st start count instances).1 =
      .ok ts) :
    (ts.getD i TranslatedAttribute.init).divisor = 0 ∧
    (ts.getD i TranslatedAttribute.init).stride = 0 ∧
    (ts.getD i TranslatedAttribute.init).storage = none ∧
    ∃ b, ((prepareVertexData env w st start count
          instances).2.1.currentValueCache.getD i
        CurrentValueState.init).buffer = some b ∧
      (ts.getD i TranslatedAttribute.init).serial = b.serial := by
  unfold prepareVertexData at hok ⊢
  cases hsb : w.streamingBuffer with
  | none =>
    try rw [hsb] at hok
    simp at hok
  | some streaming =>
    try rw [hsb] at hok
    try rw [hsb]
    dsimp only at hok ⊢
    rcases hA : activityLoop st (List.range st.attrs.length) w
      with ⟨ts0, w1⟩
    try rw [hA] at hok
    try rw [hA]
    dsimp only at hok ⊢
    have hts0 : ts0 = (List.range st.attrs.length).map (initSlot st) := by
      have := activityLoop_fst st (List.range st.attrs.length) w
      rw [hA] at this
      exact this
    have hcache1 : w1.currentValueCache = w.currentValueCache := by
      have := activityLoop_cache st (List.range st.attrs.length) w
      rw [hA] at this
      exact this
    rcases hR : reserveLoop streaming st count instances
        (List.range MAX_VERTEX_ATTRIBS) w1 ts0 with ⟨r, evsR⟩
    try rw [hR] at hok
    try rw [hR]
    cases r with
    | fail e =>
      dsimp only at hok
      simp at hok
    | fatal s =>
      dsimp only at hok
      simp at hok
    | ok u =>
      dsimp only at hok ⊢
      rcases hS : storeLoop env streaming st start count instances
          (List.range MAX_VERTEX_ATTRIBS) w1 ts0 with ⟨res, w2, ts2, evsS⟩
      try rw [hS] at hok
      try rw [hS]
      cases res with
      | fail e =>
        dsimp only at hok
        simp at hok
      | fatal s =>
        dsimp only at hok
        simp at hok
      | ok u2 =>
        dsimp only at hok ⊢
        have hts : ts2 = ts := by simpa using hok
        subst hts
        have h1 : (ts0.getD i TranslatedAttribute.init).active = true := by
          rw [hts0, getD_map_range _ _ _ _ hil]
          simp [initSlot, hact]
        have h2 : ((ts0.getD i TranslatedAttribute.init).attrib.getD
            VertexAttribute.init).enabled = false := by
          rw [hts0, getD_map_range _ _ _ _ hil]
          simp only [initSlot, hact, if_true, ite_true, Option.getD_some]
          exact hdis
        have hlen1 : i < w1.currentValueCache.length := by
          rw [hcache1]
          exact hlen
        exact storeLoop_disabled_slot env streaming st start count
          instances (List.range MAX_VERTEX_ATTRIBS) w1 ts0 i
          (List.nodup_range _) (List.mem_range.mpr hi) h1 h2 hlen1
          w2 ts2 evsS (by rw [hS])

/-- Witness for C10: slot 1 of the `stOk` fixture (a disabled attribute
declaring divisor 7 and stride 12) yields a record with divisor 0,
stride 0, no source buffer, and the serial of the slot's constant-value
buffer. -/
theorem prepareVertexData_disabled_slot_witness :
    (prepOkTranslated.getD 1 TranslatedAttribute.init).divisor = 0 ∧
    (prepOkTranslated.getD 1 TranslatedAttribute.init).stride = 0 ∧
    (prepOkTranslated.getD 1 TranslatedAttribute.init).storage = none ∧
    ∃ b, ((prepareVertexData envX wOk stOk 5 3
          0).2.1.currentValueCache.getD 1
        CurrentValueState.init).buffer = some b ∧
      (prepOkTranslated.getD 1 TranslatedAttribute.init).serial =
        b.serial :=
  prepareVertexData_disabled_slot envX wOk stOk 5 3 0 1 prepOkTranslated
    (by decide) (by decide) (by decide) (by decide) (by decide)
    (by decide)

end rx
